import Mathlib

/-!
Shallow embedding of the slip workflow of the saeedautobackend repository
(routes/slips router together with the Item, Slip and Income mongoose models).

Modelling conventions:
* Money values are rationals (`ℚ`); the routes call `parseFloat` on numeric
  request fields, and arithmetic on ordinary finite JS numbers is modelled
  exactly by rational arithmetic on the inputs used here.
* Quantities are integers (`Int`); a missing quantity behaves as `0` in every
  comparison the routes make, and for integer inputs `parseInt` is the
  identity.
* JS strings that are only tested for truthiness are modelled as `String`,
  with `""` standing for both the empty string and `undefined`.  Fields whose
  `undefined`-ness is tested with `!== undefined` (such as `p.unitPrice` and
  the update-request fields) are modelled as `Option` values.
* A mongoose document id is modelled as a `Nat`; timestamps are `Nat`s.
* Each route handler runs inside a single MongoDB transaction that is
  aborted on every error response, so an operation is modelled as a function
  from the pre-state to either an error (leaving the state unchanged) or the
  committed post-state.
* `findOne` returns the first matching document; collections are lists in
  insertion order.
-/

namespace SaeedAuto

/-- Case-insensitive exact string equality, modelling the anchored
case-insensitive regexes `new RegExp('^name$', 'i')` used by the routes;
comparing the lower-cased character lists is the same as comparing the
lower-cased strings, and evaluates by kernel reduction. -/
def ciEq (a b : String) : Bool :=
  a.data.map Char.toLower == b.data.map Char.toLower

/-- Substring test on character lists. -/
def containsSub : List Char → List Char → Bool
  | [], needle => needle.isEmpty
  | c :: t, needle => needle.isPrefixOf (c :: t) || containsSub t needle

/-- Case-insensitive substring match, modelling the unanchored
case-insensitive regexes `new RegExp(name, 'i')` used by the update route. -/
def strContainsCI (hay pat : String) : Bool :=
  containsSub (hay.data.map Char.toLower) (pat.data.map Char.toLower)

/-- JS `a || b` on an optional number: `undefined`, `NaN` and `0` are falsy. -/
def orQ : Option ℚ → ℚ → ℚ
  | some q, b => if q = 0 then b else q
  | none, b => b

/-- JS `String.prototype.trim`, written over the character list so that it
evaluates by kernel reduction (`String.trim` itself does not). -/
def jsTrim (s : String) : String :=
  ⟨((s.data.dropWhile Char.isWhitespace).reverse.dropWhile Char.isWhitespace).reverse⟩

/-- JS `a || b` on an optional string: `undefined` and `""` are falsy. -/
def orStr : Option String → String → String
  | some s, b => if s = "" then b else s
  | none, b => b

/-- JS `Math.max` on two numbers, written so that it evaluates by kernel
reduction; it agrees with `max` (see `mathMax_eq_max`). -/
def mathMax (a b : ℚ) : ℚ := if a ≤ b then b else a

/-- JS `Math.abs`, written so that it evaluates by kernel reduction; it
agrees with `|·|` (see `jsAbs_eq_abs`). -/
def jsAbs (q : ℚ) : ℚ := if q < 0 then -q else q

/-- Rational subtraction, written via `mkRat` so that it evaluates by kernel
reduction; it agrees with `-` (see `qSub_eq`). -/
def qSub (a b : ℚ) : ℚ := mkRat (a.num * b.den - b.num * a.den) (a.den * b.den)

/-- Rational multiplication, written via `mkRat` so that it evaluates by
kernel reduction; it agrees with `*` (see `qMul_eq`). -/
def qMul (a b : ℚ) : ℚ := mkRat (a.num * b.num) (a.den * b.den)

lemma mathMax_eq_max (a b : ℚ) : mathMax a b = max a b := by
  unfold mathMax
  rw [max_def]

lemma jsAbs_eq_abs (q : ℚ) : jsAbs q = |q| := by
  unfold jsAbs
  by_cases h : q < 0
  · rw [if_pos h, abs_of_neg h]
  · rw [if_neg h, abs_of_nonneg (le_of_not_lt h)]

lemma rat_mul_den (a : ℚ) : a * (a.den : ℚ) = (a.num : ℚ) := by
  have ha : (a.den : ℚ) ≠ 0 := by exact_mod_cast a.den_pos.ne'
  nth_rewrite 1 [← Rat.num_div_den a]
  exact div_mul_cancel₀ _ ha

lemma qSub_eq (a b : ℚ) : qSub a b = a - b := by
  have ha : (a.den : ℚ) ≠ 0 := by exact_mod_cast a.den_pos.ne'
  have hb : (b.den : ℚ) ≠ 0 := by exact_mod_cast b.den_pos.ne'
  unfold qSub
  rw [Rat.mkRat_eq_div]
  push_cast
  rw [div_eq_iff (mul_ne_zero ha hb)]
  calc (a.num : ℚ) * b.den - (b.num : ℚ) * a.den
      = (a * a.den) * b.den - (b * b.den) * a.den := by rw [rat_mul_den, rat_mul_den]
    _ = (a - b) * ((a.den : ℚ) * b.den) := by ring

lemma qMul_eq (a b : ℚ) : qMul a b = a * b := by
  have ha : (a.den : ℚ) ≠ 0 := by exact_mod_cast a.den_pos.ne'
  have hb : (b.den : ℚ) ≠ 0 := by exact_mod_cast b.den_pos.ne'
  unfold qMul
  rw [Rat.mkRat_eq_div]
  push_cast
  rw [div_eq_iff (mul_ne_zero ha hb)]
  calc (a.num : ℚ) * b.num
      = (a * a.den) * (b * b.den) := by rw [rat_mul_den, rat_mul_den]
    _ = (a * b) * ((a.den : ℚ) * b.den) := by ring

/-- Decidable equality for `Except`, used to evaluate route results in
concrete witnesses. -/
instance decEqExcept {ε α : Type} [DecidableEq ε] [DecidableEq α] :
    DecidableEq (Except ε α) := fun x y =>
  match x, y with
  | .ok a, .ok b =>
    if h : a = b then .isTrue (h ▸ rfl) else .isFalse fun hh => h (Except.ok.inj hh)
  | .error a, .error b =>
    if h : a = b then .isTrue (h ▸ rfl) else .isFalse fun hh => h (Except.error.inj hh)
  | .ok _, .error _ => .isFalse fun hh => Except.noConfusion hh
  | .error _, .ok _ => .isFalse fun hh => Except.noConfusion hh

/-- An inventory item (the Item mongoose model).  Fields not read by the slip
workflow (cost price, stock thresholds, description, ...) are omitted. -/
structure Item where
  id : Nat
  name : String
  sku : String
  productType : String
  coverType : String
  plateCompany : String
  bikeName : String
  plateType : String
  formCompany : String
  formType : String
  formVariant : String
  quantity : Int
  isActive : Option Bool
deriving DecidableEq

/-- A product line embedded in a slip (the ProductSchema subdocument). -/
structure ProductLine where
  productName : String
  productType : String
  coverType : String
  plateCompany : String
  bikeName : String
  plateType : String
  formCompany : String
  formType : String
  formVariant : String
  quantity : Int
  basePrice : ℚ
  unitPrice : ℚ
  discountAmount : ℚ
  discountType : String
  totalPrice : ℚ
  category : String
  subcategory : String
  company : String
deriving DecidableEq

/-- A sold-product snapshot inside an income record (SoldProductSchema);
unlike `ProductLine` it carries a `sku` and no base-price/discount fields. -/
structure SoldProduct where
  productName : String
  sku : String
  productType : String
  coverType : String
  plateCompany : String
  bikeName : String
  plateType : String
  formCompany : String
  formType : String
  formVariant : String
  quantity : Int
  unitPrice : ℚ
  totalPrice : ℚ
  category : String
  subcategory : String
  company : String
deriving DecidableEq

/-- A sales slip (the Slip mongoose model). -/
structure Slip where
  id : Nat
  slipNumber : String
  customerName : String
  customerPhone : String
  paymentMethod : String
  products : List ProductLine
  subtotal : ℚ
  totalAmount : ℚ
  status : String
  cancelledAt : Option Nat
  notes : String
deriving DecidableEq

/-- A derived income record (the Income mongoose model). -/
structure IncomeRecord where
  id : Nat
  date : Nat
  totalIncome : ℚ
  productsSold : List SoldProduct
  customerName : String
  customerPhone : String
  paymentMethod : String
  slipNumber : String
  slipId : Option Nat
  isActive : Bool
  notes : String
deriving DecidableEq

/-- The persistent state touched by the slip workflow. -/
structure State where
  items : List Item
  slips : List Slip
  incomes : List IncomeRecord
deriving DecidableEq

/-- A numeric request field: absent (`null`/`undefined`), non-numeric
(`parseFloat` yields `NaN`), or an actual number. -/
inductive NumField where
  | missing
  | nan
  | num (q : ℚ)
deriving DecidableEq

/-- One entry of the `products` array of a create/update request body. -/
structure ReqProduct where
  productName : String := ""
  itemName : String := ""
  productType : String := ""
  coverType : String := ""
  plateCompany : String := ""
  bikeName : String := ""
  plateType : String := ""
  formCompany : String := ""
  formType : String := ""
  formVariant : String := ""
  quantity : Int := 0
  basePrice : Option ℚ := none
  unitPrice : Option ℚ := none
  price : Option ℚ := none
  category : String := ""
  subcategory : String := ""
  company : String := ""
deriving DecidableEq

/-- The body of a `POST /slips` request. -/
structure CreateReq where
  customerName : String := ""
  customerPhone : String := ""
  paymentMethod : String := ""
  subtotal : NumField := .missing
  totalAmount : NumField := .missing
  products : List ReqProduct := []
deriving DecidableEq

/-- The body of a `PUT /slips/:id` request; `none` means the field is absent. -/
structure UpdateReq where
  customerName : Option String := none
  customerPhone : Option String := none
  paymentMethod : Option String := none
  notes : Option String := none
  products : Option (List ReqProduct) := none
  subtotal : Option ℚ := none
  totalAmount : Option ℚ := none
  status : Option String := none
deriving DecidableEq

/-- The Mongo conditions `isActive: { $ne: false }` and
`$or: [{ isActive: true }, { isActive: { $exists: false } }]` both match a
document whose `isActive` is `true` or absent. -/
def activeNotFalse (it : Item) : Bool := it.isActive != some false

/-- The strict Mongo condition `isActive: true` used by the update route. -/
def activeTrue (it : Item) : Bool := it.isActive == some true

/-- Anchored case-insensitive name-or-SKU match. -/
def matchesNameOrSku (text : String) (it : Item) : Bool :=
  ciEq it.name text || ciEq it.sku text

/-- Unanchored case-insensitive name-or-SKU match (update route regexes). -/
def matchesNameOrSkuSub (text : String) (it : Item) : Bool :=
  strContainsCI it.name text || strContainsCI it.sku text

/-- The attribute query built by the create route (and the delete route's
fallback): `productType: pt || 'Cover'`, the `$or` active condition, and the
type-specific attribute constraints added only when the raw `productType`
equals the given type and the attribute is truthy. -/
def matchesAttrQuery (pt ct pc bn plt fc ft fv : String) (it : Item) : Bool :=
  it.productType == (if pt = "" then "Cover" else pt) &&
  activeNotFalse it &&
  (if pt == "Cover" && ct != "" then it.coverType == ct else true) &&
  (if pt == "Plate" then
      (bn == "" || it.bikeName == bn) &&
      (pc == "" || it.plateCompany == pc) &&
      (plt == "" || it.plateType == plt)
    else true) &&
  (if pt == "Form" then
      (fc == "" || it.formCompany == fc) &&
      (ft == "" || it.formType == ft) &&
      (fv == "" || it.formVariant == fv) &&
      (bn == "" || it.bikeName == bn)
    else true)

/-- The cover types eligible for the bulk discount. -/
def bulkDiscountTypes : List String :=
  ["Aster Cover", "Without Aster Cover", "Calendar Cover"]

/-- `calculateBulkDiscount` from the slips router: a flat 10-per-unit
discount for eligible cover types at quantity 10 or more. -/
def calculateBulkDiscount (coverType : String) (quantity : Int) (_basePrice : ℚ) : ℚ :=
  if bulkDiscountTypes.contains coverType ∧ 10 ≤ quantity then 10 else 0

/-- Product-name synthesis shared by the create and update routes: when the
caller supplies no (or a blank) name, derive one from the product type and
its distinguishing attribute. -/
def synthLineName (p : ReqProduct) : String :=
  let given := if p.productName ≠ "" then p.productName else p.itemName
  if jsTrim given = "" then
    let pt := if p.productType = "" then "Cover" else p.productType
    if pt = "Cover" ∧ p.coverType ≠ "" then
      pt ++ " - " ++ p.coverType
    else if pt = "Plate" ∧ p.plateType ≠ "" then
      pt ++ " - " ++ p.plateType ++
        (if p.bikeName ≠ "" then " (" ++ p.bikeName ++ ")" else "")
    else if pt = "Form" ∧ p.formVariant ≠ "" then
      pt ++ " - " ++ p.formVariant ++
        (if p.formCompany ≠ "" then " (" ++ p.formCompany ++ ")" else "")
    else pt
  else given

/-- Errors of the create route.  The first six are returned directly with
status 400; the two line errors are thrown inside `processedProducts` and
land in the route's catch-all handler, which responds with status 500. -/
inductive CreateErr where
  | emptyProducts
  | missingTotals
  | nanTotals
  | negativeTotals
  | productNotFound (name : String)
  | insufficientStock (name : String) (available : Int)
  | lineInvalidQuantity (idx : Nat)
  | lineNegativeBasePrice (idx : Nat)
deriving DecidableEq

/-- HTTP status of a create error. -/
def createStatus : CreateErr → Nat
  | .emptyProducts => 400
  | .missingTotals => 400
  | .nanTotals => 400
  | .negativeTotals => 400
  | .productNotFound _ => 400
  | .insufficientStock _ _ => 400
  | .lineInvalidQuantity _ => 500
  | .lineNegativeBasePrice _ => 500

/-- The base price extracted from a request line:
`parseFloat(p.basePrice) || parseFloat(p.unitPrice) || parseFloat(p.price) || 0`
(both routes compute it this way, JS `||` treating `0` and `NaN` as falsy). -/
def lineBase (p : ReqProduct) : ℚ :=
  orQ p.basePrice (orQ p.unitPrice (orQ p.price 0))

/-- The per-unit bulk discount computed for a request line: both routes call
`calculateBulkDiscount` only when the defaulted product type is `Cover` and
a cover type is given. -/
def lineBulk (p : ReqProduct) : ℚ :=
  if (if p.productType = "" then "Cover" else p.productType) = "Cover" ∧
      p.coverType ≠ "" then
    calculateBulkDiscount p.coverType p.quantity (lineBase p)
  else 0

/-- Line processing of the create route (`processedProducts` map body):
validation, bulk discount, manual override, clamping and name synthesis. -/
def processLine (idx : Nat) (p : ReqProduct) : Except CreateErr ProductLine :=
  let quantity := p.quantity
  let basePrice := lineBase p
  let coverType := p.coverType
  let productType := if p.productType = "" then "Cover" else p.productType
  if quantity ≤ 0 then .error (.lineInvalidQuantity idx)
  else if basePrice < 0 then .error (.lineNegativeBasePrice idx)
  else
    let bulk := lineBulk p
    let discountAmount0 := bulk
    let discountType0 := if bulk > 0 then "bulk" else "none"
    let finalUnitPrice :=
      match p.unitPrice with
      | some u => u
      | none => qSub basePrice discountAmount0
    let isManual : Bool :=
      match p.unitPrice with
      | some u => decide (jsAbs (qSub u (qSub basePrice discountAmount0)) > mkRat 1 100)
      | none => false
    let discountType := if isManual then "manual" else discountType0
    let discountAmount :=
      if isManual then mathMax 0 (qSub basePrice finalUnitPrice) else discountAmount0
    let safeUnitPrice := mathMax 0 finalUnitPrice
    .ok {
      productName := synthLineName p
      productType := productType
      coverType := coverType
      plateCompany := p.plateCompany
      bikeName := p.bikeName
      plateType := p.plateType
      formCompany := p.formCompany
      formType := p.formType
      formVariant := p.formVariant
      quantity := quantity
      basePrice := mathMax 0 basePrice
      unitPrice := safeUnitPrice
      discountAmount := qMul discountAmount (quantity : ℚ)
      discountType := discountType
      totalPrice := qMul (quantity : ℚ) safeUnitPrice
      category := p.category
      subcategory := p.subcategory
      company := p.company }

/-- Line processing of the update route (`updateData.products` map body).
Unlike the create route it performs no validation, uses exact inequality
instead of the 0.01 tolerance for detecting a manual override, applies no
`max 0` clamping, and writes no form attribute fields (mongoose fills them
with their empty-string defaults). -/
def updateProcessLine (p : ReqProduct) : ProductLine :=
  let quantity := p.quantity
  let basePrice := lineBase p
  let coverType := p.coverType
  let productType := if p.productType = "" then "Cover" else p.productType
  let bulk := lineBulk p
  let discountType0 := if bulk > 0 then "bulk" else "none"
  let finalUnitPrice :=
    match p.unitPrice with
    | some u => u
    | none => qSub basePrice bulk
  let isManual : Bool :=
    match p.unitPrice with
    | some u => decide (u ≠ qSub basePrice bulk)
    | none => false
  let discountType := if isManual then "manual" else discountType0
  let discountAmount := if isManual then qSub basePrice finalUnitPrice else bulk
  { productName := synthLineName p
    productType := productType
    coverType := coverType
    plateCompany := p.plateCompany
    bikeName := p.bikeName
    plateType := p.plateType
    formCompany := ""
    formType := ""
    formVariant := ""
    quantity := quantity
    basePrice := basePrice
    unitPrice := finalUnitPrice
    discountAmount := qMul discountAmount (quantity : ℚ)
    discountType := discountType
    totalPrice := qMul (quantity : ℚ) finalUnitPrice
    category := p.category
    subcategory := p.subcategory
    company := p.company }

/-- Projection of a slip product line to the income record's sold-product
shape (the line has no `sku`, so `p.sku || ''` yields the empty string). -/
def mkSoldProduct (p : ProductLine) : SoldProduct :=
  { productName := p.productName
    sku := ""
    productType := p.productType
    coverType := p.coverType
    plateCompany := p.plateCompany
    bikeName := p.bikeName
    plateType := p.plateType
    formCompany := p.formCompany
    formType := p.formType
    formVariant := p.formVariant
    quantity := p.quantity
    unitPrice := p.unitPrice
    totalPrice := p.totalPrice
    category := p.category
    subcategory := p.subcategory
    company := p.company }

/-- `Item.findByIdAndUpdate(id, $inc: quantity: delta)`. -/
def adjustQty (items : List Item) (id : Nat) (delta : Int) : List Item :=
  items.map fun it =>
    if it.id = id then { it with quantity := it.quantity + delta } else it

/-- Apply a list of `(item id, delta)` quantity adjustments in order. -/
def applyDeltas (items : List Item) (ds : List (Nat × Int)) : List Item :=
  ds.foldl (fun acc d => adjustQty acc d.1 d.2) items

/-- Net quantity delta that a list of adjustments applies to a given id. -/
def netDelta (ds : List (Nat × Int)) (j : Nat) : Int :=
  ((ds.filter fun d => d.1 == j).map Prod.snd).sum

/-- Item resolution of the create route: attribute lookup first; if it finds
nothing and a product name is given, fall back to an anchored
case-insensitive name/SKU lookup. -/
def resolveCreate (items : List Item) (p : ReqProduct) : Option Item :=
  match items.find? (matchesAttrQuery p.productType p.coverType p.plateCompany
      p.bikeName p.plateType p.formCompany p.formType p.formVariant) with
  | some it => some it
  | none =>
    let name := if p.productName ≠ "" then p.productName else p.itemName
    if name ≠ "" then
      items.find? fun it => matchesNameOrSku name it && activeNotFalse it
    else none

/-- Display name used in the create route's error messages. -/
def displayName (p : ReqProduct) : String :=
  if p.productName ≠ "" then p.productName else p.itemName

/-- Resolution and stock-validation loop of the create route.  Each line is
checked against the not-yet-decremented inventory; decrements are collected
and applied only after every line has been validated. -/
def validateProducts (items : List Item) : List ReqProduct →
    Except CreateErr (List (Nat × Int))
  | [] => .ok []
  | p :: rest =>
    match resolveCreate items p with
    | none => .error (.productNotFound (displayName p))
    | some it =>
      if it.quantity < p.quantity then
        .error (.insufficientStock (displayName p) it.quantity)
      else do
        let tail ← validateProducts items rest
        .ok ((it.id, p.quantity) :: tail)

/-- The `processedProducts` map of the create route, with 1-based indices as
used in its error messages. -/
def processProducts (idx : Nat) : List ReqProduct →
    Except CreateErr (List ProductLine)
  | [] => .ok []
  | p :: rest => do
    let line ← processLine idx p
    let tail ← processProducts (idx + 1) rest
    .ok (line :: tail)

/-- The `POST /` handler of the slips router, as a transaction on the state:
request validation, per-line resolution and stock checks, line processing,
stock decrement, slip insertion and income-record insertion.  The generated
document ids, slip number and current time are passed as parameters. -/
def createSlipCore (st : State) (req : CreateReq)
    (newSlipId newIncomeId : Nat) (slipNum : String) (now : Nat) :
    Except CreateErr (State × Slip × IncomeRecord) :=
  if req.products = [] then .error .emptyProducts
  else if req.subtotal = .missing ∨ req.totalAmount = .missing then
    .error .missingTotals
  else
    match req.subtotal, req.totalAmount with
    | .num s, .num t =>
      if s < 0 ∨ t < 0 then .error .negativeTotals
      else do
        let ups ← validateProducts st.items req.products
        let lines ← processProducts 1 req.products
        let items1 := applyDeltas st.items (ups.map fun u => (u.1, -u.2))
        let slip : Slip := {
          id := newSlipId
          slipNumber := slipNum
          customerName :=
            if req.customerName = "" then "Walk-in Customer" else req.customerName
          customerPhone := req.customerPhone
          paymentMethod :=
            if req.paymentMethod = "" then "Cash" else req.paymentMethod
          products := lines
          subtotal := s
          totalAmount := t
          status := "Paid"
          cancelledAt := none
          notes := "" }
        let inc : IncomeRecord := {
          id := newIncomeId
          date := now
          totalIncome := t
          productsSold := lines.map mkSoldProduct
          customerName := slip.customerName
          customerPhone := slip.customerPhone
          paymentMethod := slip.paymentMethod
          slipNumber := if slip.slipNumber = "" then toString slip.id else slip.slipNumber
          slipId := some slip.id
          isActive := true
          notes := "Sale from slip" }
        .ok ({ items := items1, slips := st.slips ++ [slip],
               incomes := st.incomes ++ [inc] }, slip, inc)
    | _, _ => .error .nanTotals

/-- HTTP status and committed state of a create request: the transaction is
aborted (leaving the state unchanged) on every error. -/
def createRun (st : State) (req : CreateReq)
    (newSlipId newIncomeId : Nat) (slipNum : String) (now : Nat) : Nat × State :=
  match createSlipCore st req newSlipId newIncomeId slipNum now with
  | .ok (st1, _, _) => (201, st1)
  | .error e => (createStatus e, st)

/-- True when an income record references a slip by id or slip number
(the `$or` condition of the routes' `Income.updateMany` calls). -/
def referencesSlip (s : Slip) (inc : IncomeRecord) : Bool :=
  inc.slipId == some s.id || inc.slipNumber == s.slipNumber

/-- `Income.updateMany` deactivation used by the cancel, update-to-cancelled
and delete paths: every active record referencing the slip gets
`isActive := false` and a note; the second component is `modifiedCount`. -/
def deactivateFor (incomes : List IncomeRecord) (s : Slip) (note : String) :
    List IncomeRecord × Nat :=
  (incomes.map fun inc =>
      if referencesSlip s inc && inc.isActive then
        { inc with isActive := false, notes := note }
      else inc,
    (incomes.filter fun inc => referencesSlip s inc && inc.isActive).length)

/-- Inventory-restoration loop of the cancel, update-to-cancelled and delete
paths (name/SKU part): skip lines with a blank name or non-positive
quantity, resolve by anchored case-insensitive name/SKU among items whose
`isActive` is not `false`, increment on a hit, count restored lines, and
silently continue on a miss. -/
def restoreByName : List Item → List ProductLine → List Item × Nat
  | items, [] => (items, 0)
  | items, pr :: rest =>
    if pr.productName = "" ∨ pr.quantity ≤ 0 then restoreByName items rest
    else
      match items.find? (fun it =>
          matchesNameOrSku pr.productName it && activeNotFalse it) with
      | some it =>
        let res := restoreByName (adjustQty items it.id pr.quantity) rest
        (res.1, res.2 + 1)
      | none => restoreByName items rest

/-- Result of the dedicated cancel route (`PATCH /cancel/:id`).  Error
results abort the transaction, so they carry no state. -/
inductive CancelResult where
  | notFound
  | alreadyCancelled (prior : Option Nat)
  | ok (st : State) (slip : Slip) (incomeRecordsUpdated : Nat)
      (inventoryItemsRestored : Nat)
deriving DecidableEq

/-- The `PATCH /cancel/:id` handler: load, guard against double
cancellation, mark the slip cancelled, deactivate referencing income
records, and restore inventory best-effort. -/
def cancelSlip (st : State) (slipId : Nat) (reason : String) (now : Nat) :
    CancelResult :=
  match st.slips.find? (fun s => s.id == slipId) with
  | none => .notFound
  | some s =>
    if s.status = "Cancelled" then .alreadyCancelled s.cancelledAt
    else
      let s1 : Slip :=
        { s with
          status := "Cancelled"
          cancelledAt := some now
          notes :=
            if reason ≠ "" then jsTrim (s.notes ++ "\n[CANCELLED: " ++ reason ++ "]")
            else s.notes }
      let deact := deactivateFor st.incomes s1 "Cancelled - Slip"
      let rest := restoreByName st.items s.products
      .ok { items := rest.1
            slips := st.slips.map (fun t => if t.id == s.id then s1 else t)
            incomes := deact.1 }
        s1 deact.2 rest.2

/-- HTTP status and committed state of a cancel request. -/
def cancelRun (st : State) (slipId : Nat) (reason : String) (now : Nat) :
    Nat × State :=
  match cancelSlip st slipId reason now with
  | .notFound => (404, st)
  | .alreadyCancelled _ => (400, st)
  | .ok st1 _ _ _ => (200, st1)

/-- Restore-old-lines loop of the update route: unanchored case-insensitive
name/SKU lookup restricted to `isActive: true`, incrementing by the old line
quantity on a hit; no skip guard and no counting. -/
def restoreOldProducts : List Item → List ProductLine → List Item
  | items, [] => items
  | items, pr :: rest =>
    match items.find? (fun it =>
        matchesNameOrSkuSub pr.productName it && activeTrue it) with
    | some it => restoreOldProducts (adjustQty items it.id pr.quantity) rest
    | none => restoreOldProducts items rest

/-- Errors of the update route's new-product validation loop. -/
inductive NewProdErr where
  | invalid
  | notFound (name : String)
  | insufficient (name : String) (available : Int)
deriving DecidableEq

/-- New-product validation loop of the update route, run against the
inventory after the old lines have been restored: reject blank names and
non-positive quantities, resolve by unanchored name/SKU among
`isActive: true` items, and check stock; decrements are collected and
applied after the whole loop succeeds. -/
def validateNewProducts (items : List Item) : List ReqProduct →
    Except NewProdErr (List (Nat × Int))
  | [] => .ok []
  | p :: rest =>
    let name := if p.productName ≠ "" then p.productName else p.itemName
    if name = "" ∨ p.quantity ≤ 0 then .error .invalid
    else
      match items.find? (fun it =>
          matchesNameOrSkuSub name it && activeTrue it) with
      | none => .error (.notFound name)
      | some it =>
        if it.quantity < p.quantity then
          .error (.insufficient name it.quantity)
        else do
          let tail ← validateNewProducts items rest
          .ok ((it.id, p.quantity) :: tail)

/-- The partial slip update built from the provided request fields
(`findByIdAndUpdate` with `updateData`). -/
def applySlipUpdate (s : Slip) (u : UpdateReq)
    (lines : Option (List ProductLine)) (cancelAt : Option Nat) : Slip :=
  { s with
    customerName := u.customerName.getD s.customerName
    customerPhone := u.customerPhone.getD s.customerPhone
    paymentMethod := u.paymentMethod.getD s.paymentMethod
    notes := u.notes.getD s.notes
    subtotal := u.subtotal.getD s.subtotal
    totalAmount := u.totalAmount.getD s.totalAmount
    status := u.status.getD s.status
    products := lines.getD s.products
    cancelledAt := match cancelAt with | some t => some t | none => s.cancelledAt }

/-- Income mirroring of the update route: every active record referencing
the slip gets the new total, product snapshots and customer fields. -/
def updateIncomesFor (incomes : List IncomeRecord) (s : Slip) (u : UpdateReq)
    (s1 : Slip) (lines : List ProductLine) : List IncomeRecord :=
  incomes.map fun inc =>
    if referencesSlip s inc && inc.isActive then
      { inc with
        totalIncome := orQ u.totalAmount s1.totalAmount
        productsSold := lines.map mkSoldProduct
        customerName := orStr u.customerName s1.customerName
        paymentMethod := orStr u.paymentMethod s1.paymentMethod
        notes := u.notes.getD s.notes }
    else inc

/-- Result of the update route (`PUT /:id`).  Error results abort the
transaction, so they carry no state. -/
inductive UpdateResult where
  | notFound
  | invalidProduct
  | productNotFound (name : String)
  | insufficientStock (name : String) (available : Int)
  | alreadyCancelled (prior : Option Nat)
  | ok (st : State) (slip : Slip)
deriving DecidableEq

/-- The `PUT /:id` handler: optional inventory re-reservation for a new
products array (restore old lines, validate and decrement new lines),
recomputation of the product lines, the cancellation branch with its
double-cancellation guard, the partial slip update, and income mirroring
when the products changed on a non-cancelled slip. -/
def updateSlip (st : State) (slipId : Nat) (u : UpdateReq) (now : Nat) :
    UpdateResult :=
  match st.slips.find? (fun s => s.id == slipId) with
  | none => .notFound
  | some s =>
    let inv : Except UpdateResult (List Item) :=
      match u.products with
      | none => .ok st.items
      | some ps =>
        let restored := restoreOldProducts st.items s.products
        match validateNewProducts restored ps with
        | .error .invalid => .error .invalidProduct
        | .error (.notFound n) => .error (.productNotFound n)
        | .error (.insufficient n a) => .error (.insufficientStock n a)
        | .ok ups => .ok (applyDeltas restored (ups.map fun d => (d.1, -d.2)))
    match inv with
    | .error e => e
    | .ok items1 =>
      let lines := u.products.map (fun ps => ps.map updateProcessLine)
      if u.status = some "Cancelled" ∧ s.status = "Cancelled" ∧ s.cancelledAt.isSome then
        .alreadyCancelled s.cancelledAt
      else
        let cancelNow : Bool := u.status == some "Cancelled" && s.status != "Cancelled"
        let cancelAt : Option Nat := if cancelNow then some now else none
        let incomes1 :=
          if cancelNow then (deactivateFor st.incomes s "Cancelled - Slip").1
          else st.incomes
        let items2 :=
          if cancelNow then (restoreByName items1 s.products).1 else items1
        let s1 := applySlipUpdate s u lines cancelAt
        let incomes2 :=
          match lines with
          | some ls =>
            if u.status ≠ some "Cancelled" ∧ s.status ≠ "Cancelled" then
              updateIncomesFor incomes1 s u s1 ls
            else incomes1
          | none => incomes1
        .ok { items := items2
              slips := st.slips.map (fun t => if t.id == s.id then s1 else t)
              incomes := incomes2 }
          s1

/-- HTTP status and committed state of an update request. -/
def updateRun (st : State) (slipId : Nat) (u : UpdateReq) (now : Nat) :
    Nat × State :=
  match updateSlip st slipId u now with
  | .notFound => (404, st)
  | .invalidProduct => (400, st)
  | .productNotFound _ => (400, st)
  | .insufficientStock _ _ => (400, st)
  | .alreadyCancelled _ => (400, st)
  | .ok st1 _ => (200, st1)

/-- Inventory-restoration loop of the delete route: like the cancel loop but
with a fallback attribute lookup when the name/SKU lookup misses. -/
def restoreDelete : List Item → List ProductLine → List Item × Nat
  | items, [] => (items, 0)
  | items, pr :: rest =>
    if pr.productName = "" ∨ pr.quantity ≤ 0 then restoreDelete items rest
    else
      let found :=
        match items.find? (fun it =>
            matchesNameOrSku pr.productName it && activeNotFalse it) with
        | some it => some it
        | none =>
          if pr.productType ≠ "" then
            items.find? (matchesAttrQuery pr.productType pr.coverType
              pr.plateCompany pr.bikeName pr.plateType pr.formCompany
              pr.formType pr.formVariant)
          else none
      match found with
      | some it =>
        let res := restoreDelete (adjustQty items it.id pr.quantity) rest
        (res.1, res.2 + 1)
      | none => restoreDelete items rest

/-- Result of the delete route (`DELETE /:id`). -/
inductive DeleteResult where
  | notFound
  | ok (st : State) (inventoryItemsRestored : Nat) (incomeRecordsUpdated : Nat)
deriving DecidableEq

/-- The `DELETE /:id` handler: restore inventory best-effort, deactivate
referencing income records, then remove the slip document. -/
def deleteSlip (st : State) (slipId : Nat) : DeleteResult :=
  match st.slips.find? (fun s => s.id == slipId) with
  | none => .notFound
  | some s =>
    let rest := restoreDelete st.items s.products
    let deact := deactivateFor st.incomes s "Deleted - Slip"
    .ok { items := rest.1
          slips := st.slips.filter (fun t => !(t.id == s.id))
          incomes := deact.1 }
      rest.2 deact.2

/-- HTTP status and committed state of a delete request. -/
def deleteRun (st : State) (slipId : Nat) : Nat × State :=
  match deleteSlip st slipId with
  | .notFound => (404, st)
  | .ok st1 _ _ => (200, st1)

/-- Item id resolved by one step of the cancel-path restoration loop. -/
def resolveRestoreId (items : List Item) (pr : ProductLine) : Option Nat :=
  (items.find? fun it =>
    matchesNameOrSku pr.productName it && activeNotFalse it).map Item.id

/-- The `(item id, quantity)` increments that the cancel-path restoration
loop performs, computed against a fixed item list (the loop's lookups read
only fields that its own quantity increments never change). -/
def restorePlan (items : List Item) : List ProductLine → List (Nat × Int)
  | [] => []
  | pr :: rest =>
    if pr.productName = "" ∨ pr.quantity ≤ 0 then restorePlan items rest
    else
      match resolveRestoreId items pr with
      | some j => (j, pr.quantity) :: restorePlan items rest
      | none => restorePlan items rest

/-- Item id resolved by one step of the delete-path restoration loop
(name/SKU first, then the attribute fallback). -/
def resolveDeleteId (items : List Item) (pr : ProductLine) : Option Nat :=
  match items.find? (fun it =>
      matchesNameOrSku pr.productName it && activeNotFalse it) with
  | some it => some it.id
  | none =>
    if pr.productType ≠ "" then
      (items.find? (matchesAttrQuery pr.productType pr.coverType
        pr.plateCompany pr.bikeName pr.plateType pr.formCompany
        pr.formType pr.formVariant)).map Item.id
    else none

/-- The `(item id, quantity)` increments performed by the delete-path
restoration loop, computed against a fixed item list. -/
def deletePlan (items : List Item) : List ProductLine → List (Nat × Int)
  | [] => []
  | pr :: rest =>
    if pr.productName = "" ∨ pr.quantity ≤ 0 then deletePlan items rest
    else
      match resolveDeleteId items pr with
      | some j => (j, pr.quantity) :: deletePlan items rest
      | none => deletePlan items rest

lemma find?_map_of_pres (g : Item → Item) (f : Item → Bool)
    (hpres : ∀ it, f (g it) = f it) (items : List Item) :
    (items.map g).find? f = (items.find? f).map g := by
  induction items with
  | nil => rfl
  | cons a l ih =>
    simp only [List.map_cons, List.find?]
    rw [hpres a]
    cases h : f a <;> simp [ih]

lemma adjust_find? (f : Item → Bool)
    (hq : ∀ (it : Item) (x : Int), f { it with quantity := x } = f it)
    (items : List Item) (j : Nat) (δ : Int) :
    (adjustQty items j δ).find? f = (items.find? f).map
      (fun it => if it.id = j then { it with quantity := it.quantity + δ } else it) := by
  unfold adjustQty
  apply find?_map_of_pres
  intro it
  by_cases h : it.id = j
  · rw [if_pos h]; exact hq it _
  · rw [if_neg h]

lemma resolveRestoreId_adjust (items : List Item) (j : Nat) (δ : Int)
    (pr : ProductLine) :
    resolveRestoreId (adjustQty items j δ) pr = resolveRestoreId items pr := by
  unfold resolveRestoreId
  rw [adjust_find? (fun it => matchesNameOrSku pr.productName it && activeNotFalse it)
    (fun it x => rfl) items j δ]
  cases items.find? fun it => matchesNameOrSku pr.productName it && activeNotFalse it with
  | none => rfl
  | some it =>
    show some (if it.id = j then ({ it with quantity := it.quantity + δ } : Item) else it).id
      = some it.id
    by_cases h : it.id = j
    · rw [if_pos h]
    · rw [if_neg h]

lemma resolveDeleteId_adjust (items : List Item) (j : Nat) (δ : Int)
    (pr : ProductLine) :
    resolveDeleteId (adjustQty items j δ) pr = resolveDeleteId items pr := by
  unfold resolveDeleteId
  rw [adjust_find? (fun it => matchesNameOrSku pr.productName it && activeNotFalse it)
    (fun it x => rfl) items j δ]
  cases items.find? fun it => matchesNameOrSku pr.productName it && activeNotFalse it with
  | some it =>
    show some (if it.id = j then ({ it with quantity := it.quantity + δ } : Item) else it).id
      = some it.id
    by_cases h : it.id = j
    · rw [if_pos h]
    · rw [if_neg h]
  | none =>
    show (if pr.productType ≠ "" then _ else none) = (if pr.productType ≠ "" then _ else none)
    by_cases hpt : pr.productType ≠ ""
    · rw [if_pos hpt, if_pos hpt]
      rw [adjust_find? (matchesAttrQuery pr.productType pr.coverType pr.plateCompany
        pr.bikeName pr.plateType pr.formCompany pr.formType pr.formVariant)
        (fun it x => rfl) items j δ]
      cases items.find? (matchesAttrQuery pr.productType pr.coverType pr.plateCompany
          pr.bikeName pr.plateType pr.formCompany pr.formType pr.formVariant) with
      | none => rfl
      | some it =>
        show some (if it.id = j then ({ it with quantity := it.quantity + δ } : Item) else it).id
          = some it.id
        by_cases h : it.id = j
        · rw [if_pos h]
        · rw [if_neg h]
    · rw [if_neg hpt, if_neg hpt]

lemma restorePlan_adjust (items : List Item) (j : Nat) (δ : Int) :
    ∀ prs, restorePlan (adjustQty items j δ) prs = restorePlan items prs := by
  intro prs
  induction prs with
  | nil => rfl
  | cons pr rest ih =>
    unfold restorePlan
    rw [resolveRestoreId_adjust, ih]

lemma deletePlan_adjust (items : List Item) (j : Nat) (δ : Int) :
    ∀ prs, deletePlan (adjustQty items j δ) prs = deletePlan items prs := by
  intro prs
  induction prs with
  | nil => rfl
  | cons pr rest ih =>
    unfold deletePlan
    rw [resolveDeleteId_adjust, ih]

lemma restoreByName_eq_plan :
    ∀ (prs : List ProductLine) (items : List Item),
      restoreByName items prs =
        (applyDeltas items (restorePlan items prs), (restorePlan items prs).length) := by
  intro prs
  induction prs with
  | nil => intro items; rfl
  | cons pr rest ih =>
    intro items
    by_cases hskip : pr.productName = "" ∨ pr.quantity ≤ 0
    · have hplan : restorePlan items (pr :: rest) = restorePlan items rest := by
        simp only [restorePlan]; rw [if_pos hskip]
      have hloop : restoreByName items (pr :: rest) = restoreByName items rest := by
        simp only [restoreByName]; rw [if_pos hskip]
      rw [hloop, hplan, ih]
    · cases hfind : items.find? (fun it =>
          matchesNameOrSku pr.productName it && activeNotFalse it) with
      | none =>
        have hres : resolveRestoreId items pr = none := by
          unfold resolveRestoreId; rw [hfind]; rfl
        have hplan : restorePlan items (pr :: rest) = restorePlan items rest := by
          simp only [restorePlan]; rw [if_neg hskip, hres]
        have hloop : restoreByName items (pr :: rest) = restoreByName items rest := by
          simp only [restoreByName]; rw [if_neg hskip, hfind]
        rw [hloop, hplan, ih]
      | some it =>
        have hres : resolveRestoreId items pr = some it.id := by
          unfold resolveRestoreId; rw [hfind]; rfl
        have hplan : restorePlan items (pr :: rest) =
            (it.id, pr.quantity) :: restorePlan items rest := by
          simp only [restorePlan]; rw [if_neg hskip, hres]
        have hloop : restoreByName items (pr :: rest) =
            ((restoreByName (adjustQty items it.id pr.quantity) rest).1,
             (restoreByName (adjustQty items it.id pr.quantity) rest).2 + 1) := by
          simp only [restoreByName]; rw [if_neg hskip, hfind]
        rw [hloop, hplan, ih, restorePlan_adjust]
        rfl

lemma restoreDelete_eq_plan :
    ∀ (prs : List ProductLine) (items : List Item),
      restoreDelete items prs =
        (applyDeltas items (deletePlan items prs), (deletePlan items prs).length) := by
  intro prs
  induction prs with
  | nil => intro items; rfl
  | cons pr rest ih =>
    intro items
    by_cases hskip : pr.productName = "" ∨ pr.quantity ≤ 0
    · have hplan : deletePlan items (pr :: rest) = deletePlan items rest := by
        simp only [deletePlan]; rw [if_pos hskip]
      have hloop : restoreDelete items (pr :: rest) = restoreDelete items rest := by
        simp only [restoreDelete]; rw [if_pos hskip]
      rw [hloop, hplan, ih]
    · cases hfind : items.find? (fun it =>
          matchesNameOrSku pr.productName it && activeNotFalse it) with
      | some it =>
        have hres : resolveDeleteId items pr = some it.id := by
          unfold resolveDeleteId; rw [hfind]
        have hplan : deletePlan items (pr :: rest) =
            (it.id, pr.quantity) :: deletePlan items rest := by
          simp only [deletePlan]; rw [if_neg hskip, hres]
        have hloop : restoreDelete items (pr :: rest) =
            ((restoreDelete (adjustQty items it.id pr.quantity) rest).1,
             (restoreDelete (adjustQty items it.id pr.quantity) rest).2 + 1) := by
          simp only [restoreDelete]; rw [if_neg hskip, hfind]
        rw [hloop, hplan, ih, deletePlan_adjust]
        rfl
      | none =>
        by_cases hpt : pr.productType ≠ ""
        · cases hfind2 : items.find? (matchesAttrQuery pr.productType pr.coverType
              pr.plateCompany pr.bikeName pr.plateType pr.formCompany
              pr.formType pr.formVariant) with
          | some it =>
            have hres : resolveDeleteId items pr = some it.id := by
              unfold resolveDeleteId; rw [hfind, if_pos hpt, hfind2]; rfl
            have hplan : deletePlan items (pr :: rest) =
                (it.id, pr.quantity) :: deletePlan items rest := by
              simp only [deletePlan]; rw [if_neg hskip, hres]
            have hloop : restoreDelete items (pr :: rest) =
                ((restoreDelete (adjustQty items it.id pr.quantity) rest).1,
                 (restoreDelete (adjustQty items it.id pr.quantity) rest).2 + 1) := by
              simp only [restoreDelete]; rw [if_neg hskip, hfind, if_pos hpt, hfind2]
            rw [hloop, hplan, ih, deletePlan_adjust]
            rfl
          | none =>
            have hres : resolveDeleteId items pr = none := by
              unfold resolveDeleteId; rw [hfind, if_pos hpt, hfind2]; rfl
            have hplan : deletePlan items (pr :: rest) = deletePlan items rest := by
              simp only [deletePlan]; rw [if_neg hskip, hres]
            have hloop : restoreDelete items (pr :: rest) = restoreDelete items rest := by
              simp only [restoreDelete]; rw [if_neg hskip, hfind, if_pos hpt, hfind2]
            rw [hloop, hplan, ih]
        · have hres : resolveDeleteId items pr = none := by
            unfold resolveDeleteId; rw [hfind, if_neg hpt]
          have hplan : deletePlan items (pr :: rest) = deletePlan items rest := by
            simp only [deletePlan]; rw [if_neg hskip, hres]
          have hloop : restoreDelete items (pr :: rest) = restoreDelete items rest := by
            simp only [restoreDelete]; rw [if_neg hskip, hfind, if_neg hpt]
          rw [hloop, hplan, ih]

lemma length_adjustQty (items : List Item) (j : Nat) (δ : Int) :
    (adjustQty items j δ).length = items.length := by
  unfold adjustQty; simp

lemma length_applyDeltas (ds : List (Nat × Int)) :
    ∀ items : List Item, (applyDeltas items ds).length = items.length := by
  induction ds with
  | nil => intro items; rfl
  | cons d rest ih =>
    intro items
    show (applyDeltas (adjustQty items d.1 d.2) rest).length = _
    rw [ih, length_adjustQty]

lemma netDelta_cons (j : Nat) (δ : Int) (ds : List (Nat × Int)) (i : Nat) :
    netDelta ((j, δ) :: ds) i = (if j = i then δ else 0) + netDelta ds i := by
  unfold netDelta
  by_cases h : j = i
  · simp [List.filter_cons, h]
  · simp [List.filter_cons, h]

lemma getElem_applyDeltas (ds : List (Nat × Int)) :
    ∀ (items : List Item) (k : Nat) (hk1 : k < (applyDeltas items ds).length)
      (hk : k < items.length),
      (applyDeltas items ds)[k] =
        { items[k] with quantity := items[k].quantity + netDelta ds items[k].id } := by
  induction ds with
  | nil =>
    intro items k hk1 hk
    show items[k] = _
    have h0 : netDelta [] items[k].id = 0 := rfl
    rw [h0, Int.add_zero]
  | cons d rest ih =>
    obtain ⟨j, δ⟩ := d
    intro items k hk1 hk
    have hlen : k < (adjustQty items j δ).length := by
      rw [length_adjustQty]; exact hk
    have hlen2 : k < (applyDeltas (adjustQty items j δ) rest).length := by
      rw [length_applyDeltas, length_adjustQty]; exact hk
    have hadj : (adjustQty items j δ)[k] =
        if items[k].id = j then { items[k] with quantity := items[k].quantity + δ }
        else items[k] := by
      unfold adjustQty
      simp [List.getElem_map]
    refine (ih (adjustQty items j δ) k hlen2 hlen).trans ?_
    rw [hadj, netDelta_cons]
    by_cases h : items[k].id = j
    · rw [if_pos h, if_pos h.symm]
      show ({ items[k] with
        quantity := items[k].quantity + δ + netDelta rest items[k].id } : Item) = _
      rw [Int.add_assoc]
    · rw [if_neg h, if_neg (fun hh => h hh.symm), Int.zero_add]

lemma netDelta_neg (ds : List (Nat × Int)) (i : Nat) :
    netDelta (ds.map fun d => (d.1, -d.2)) i = -netDelta ds i := by
  induction ds with
  | nil => rfl
  | cons d rest ih =>
    obtain ⟨j, δ⟩ := d
    rw [List.map_cons]
    show netDelta ((j, -δ) :: _) i = _
    rw [netDelta_cons, netDelta_cons, ih]
    by_cases h : j = i
    · rw [if_pos h, if_pos h]; ring
    · rw [if_neg h, if_neg h]; ring

lemma applyDeltas_append (items : List Item) (ds1 ds2 : List (Nat × Int)) :
    applyDeltas items (ds1 ++ ds2) = applyDeltas (applyDeltas items ds1) ds2 := by
  unfold applyDeltas
  rw [List.foldl_append]

lemma netDelta_append (ds1 ds2 : List (Nat × Int)) (i : Nat) :
    netDelta (ds1 ++ ds2) i = netDelta ds1 i + netDelta ds2 i := by
  unfold netDelta
  rw [List.filter_append, List.map_append, List.sum_append]

lemma applyDeltas_cancel (items : List Item) (ds : List (Nat × Int)) :
    applyDeltas (applyDeltas items (ds.map fun d => (d.1, -d.2))) ds = items := by
  rw [← applyDeltas_append]
  refine List.ext_getElem (by rw [length_applyDeltas]) ?_
  intro k h1 h2
  refine (getElem_applyDeltas _ items k h1 h2).trans ?_
  rw [netDelta_append, netDelta_neg, Int.add_left_neg, Int.add_zero]

lemma orQ_getD (a : Option ℚ) (x : ℚ) : orQ a (a.getD x) = a.getD x := by
  cases a with
  | none => rfl
  | some q =>
    show (if q = 0 then q else q) = q
    split <;> rfl

section Fixtures

/-- Fixture: an active Cover/Aster Cover item with 10 units in stock. -/
def itemFoo : Item :=
  { id := 1, name := "Foo", sku := "SKU1", productType := "Cover",
    coverType := "Aster Cover", plateCompany := "", bikeName := "",
    plateType := "", formCompany := "", formType := "", formVariant := "",
    quantity := 10, isActive := some true }

/-- Fixture: an active Cover/Color Cover item named X with 7 units. -/
def itemX : Item :=
  { itemFoo with
    id := 2
    name := "X"
    sku := "SKU2"
    coverType := "Color Cover"
    quantity := 7 }

/-- Fixture: a state holding only `itemFoo`. -/
def stOne : State := { items := [itemFoo], slips := [], incomes := [] }

/-- Fixture: a paid slip with no product lines. -/
def slipPaid : Slip :=
  { id := 50, slipNumber := "SLP-50", customerName := "C", customerPhone := "",
    paymentMethod := "Cash", products := [], subtotal := 100, totalAmount := 100,
    status := "Paid", cancelledAt := none, notes := "" }

/-- Fixture: the active income record mirroring `slipPaid`. -/
def incPaid : IncomeRecord :=
  { id := 70, date := 1, totalIncome := 100, productsSold := [],
    customerName := "C", customerPhone := "", paymentMethod := "Cash",
    slipNumber := "SLP-50", slipId := some 50, isActive := true, notes := "" }

/-- Fixture: a state with `itemFoo`, `slipPaid` and `incPaid`. -/
def stMirror : State := { items := [itemFoo], slips := [slipPaid], incomes := [incPaid] }

/-- Fixture: a cancelled slip (cancelled at time 5). -/
def slipCancelled : Slip :=
  { slipPaid with
    id := 51
    slipNumber := "SLP-51"
    status := "Cancelled"
    cancelledAt := some 5 }

/-- Fixture: a state holding `itemFoo` and `slipCancelled`. -/
def stCancelled : State := { items := [itemFoo], slips := [slipCancelled], incomes := [] }

/-- Fixture: a create request ordering six units of `itemFoo` twice. -/
def reqDup : CreateReq :=
  { subtotal := .num 1200, totalAmount := .num 1200,
    products :=
      [{ productName := "Foo", productType := "Cover",
         coverType := "Aster Cover", quantity := 6, basePrice := some 100 },
       { productName := "Foo", productType := "Cover",
         coverType := "Aster Cover", quantity := 6, basePrice := some 100 }] }

/-- Fixture: a create request for ten units of `itemFoo` at base price 5
(below the 10-per-unit bulk discount). -/
def reqCheap : CreateReq :=
  { subtotal := .num 0, totalAmount := .num 0,
    products := [{ productName := "Foo", productType := "Cover",
                   coverType := "Aster Cover", quantity := 10, basePrice := some 5 }] }

/-- Fixture: a create request with a resolvable line of quantity 0. -/
def reqZeroQty : CreateReq :=
  { subtotal := .num 0, totalAmount := .num 0,
    products := [{ productName := "Foo", quantity := 0, basePrice := some 10 }] }

/-- Fixture: a state with two cover items, where the attribute lookup and the
name lookup for the request below hit different items. -/
def stTwo : State := { items := [itemFoo, itemX], slips := [], incomes := [] }

/-- Fixture: a create request whose line is named after `itemX` but whose
attributes (Cover / Aster Cover) match `itemFoo` first. -/
def reqMismatch : CreateReq :=
  { subtotal := .num 500, totalAmount := .num 500,
    products := [{ productName := "X", productType := "Cover",
                   coverType := "Aster Cover", quantity := 5, basePrice := some 100 }] }

end Fixtures

/-- C1: the code violates the stock invariant.  A create request with two
lines for the same item (6 + 6 units against a stock of 10) passes the
per-line stock check — each line is checked against the not-yet-decremented
quantity — and the transaction commits (status 201) with the item's quantity
driven to −2, contradicting both the claim and the Item schema's
`min: 0` declaration. -/
theorem create_oversell_commits_negative_stock :
    (createRun stOne reqDup 100 200 "SLP-1" 5).1 = 201 ∧
    ((createRun stOne reqDup 100 200 "SLP-1" 5).2.items.map Item.quantity) = [-2] := by
  decide

/-- C3 counterexample: an update that changes `totalAmount` from 100 to 200
without touching the products array commits (status 200) and leaves the
slip's active income record at `totalIncome = 100`, so the claimed mirror
equality fails for updates that change totals without changing products. -/
theorem income_mirror_stale_counterexample :
    (updateRun stMirror 50 { totalAmount := some 200 } 9).1 = 200 ∧
    ((updateRun stMirror 50 { totalAmount := some 200 } 9).2.slips.map
      Slip.totalAmount) = [200] ∧
    ((updateRun stMirror 50 { totalAmount := some 200 } 9).2.incomes.map
      fun i => (i.isActive, i.totalIncome)) = [(true, 100)] ∧
    (100 : ℚ) ≠ 200 := by
  decide

/-- C4 counterexample: an update carrying `status = "Paid"` applied to a
cancelled slip commits and overwrites the status, leaving a slip with
`status = "Paid"` and `cancelledAt` still set — a transition out of
Cancelled, which also breaks the claimed `status = Cancelled ⇔ cancelledAt`
equivalence. -/
theorem uncancel_by_status_overwrite_counterexample :
    (updateRun stCancelled 51 { status := some "Paid" } 9).1 = 200 ∧
    ((updateRun stCancelled 51 { status := some "Paid" } 9).2.slips.map
      fun s => (s.status, s.cancelledAt)) = [("Paid", some 5)] := by
  decide

/-- C5 counterexample: an update with `status = "Cancelled"` on an
already-cancelled slip whose patch also carries an invalid products array
fails with the products validation error, not with AlreadyCancelled. -/
theorem already_cancelled_other_error_counterexample :
    updateSlip stCancelled 51
      { status := some "Cancelled",
        products := some [{ productName := "", quantity := 0 }] } 9 =
      .invalidProduct ∧
    updateSlip stCancelled 51
      { status := some "Cancelled",
        products := some [{ productName := "", quantity := 0 }] } 9 ≠
      .alreadyCancelled (some 5) := by
  decide

/-- C6 counterexample: for a bulk-eligible line with base price 5 the
persisted unit price is clamped to 0, not `basePrice − 10 = −5`, so the
claimed equation `unitPrice = basePrice − 10` fails below base price 10. -/
theorem bulk_discount_clamp_counterexample :
    (match createSlipCore stOne reqCheap 100 200 "S" 5 with
      | .ok (_, slip, _) => slip.products.map
          fun l => (l.unitPrice, l.discountType, l.discountAmount, l.totalPrice)
      | .error _ => []) = [(0, "bulk", 100, 0)] ∧
    (0 : ℚ) ≠ 5 - 10 := by
  exact ⟨by decide, by norm_num⟩

/-- C7 counterexample: in the update route a manual override with an
explicit unit price above the base price (150 against 100, quantity 2) is
persisted with `discountAmount = −100`, not the claimed
`max(0, basePrice − explicitUnitPrice) × quantity = 0`: the update path
applies neither the `max 0` clamping nor the 0.01 tolerance. -/
theorem manual_override_unclamped_counterexample :
    (match updateSlip stMirror 50
        { products := some [{ productName := "Foo", quantity := 2,
                              basePrice := some 100, unitPrice := some 150 }] } 9 with
      | .ok _ s1 => s1.products.map
          fun l => (l.discountAmount, l.unitPrice, l.totalPrice, l.discountType)
      | _ => []) = [(-100, 150, 300, "manual")] ∧
    ¬((-100 : ℚ) = mathMax 0 (100 - 150) * 2) := by
  exact ⟨by decide, by norm_num [mathMax]⟩

/-- C8 counterexample: a create request with a resolvable line of quantity 0
aborts with no state change but is reported as status 500 (the line check
throws and lands in the catch-all handler), not as the claimed 400. -/
theorem line_validation_reports_500_counterexample :
    createRun stOne reqZeroQty 100 200 "S" 5 = (500, stOne) ∧ (500 : Nat) ≠ 400 := by
  decide

/-- C9 counterexample: create resolves its line by attributes to item 1 and
decrements it, while cancel resolves the same line by name to item 2 and
increments that one; the cancellation resolves the line (restored count 1)
yet the quantities `[(1, 5), (2, 12)]` differ from the pre-create values
`[(1, 10), (2, 7)]`. -/
theorem roundtrip_resolution_mismatch_counterexample :
    (match createSlipCore stTwo reqMismatch 100 200 "SLP-9" 5 with
      | .ok (stA, slip, _) =>
        match cancelSlip stA slip.id "" 9 with
        | .ok stB _ _ restored =>
          some (restored, stB.items.map fun it => (it.id, it.quantity))
        | _ => none
      | .error _ => none) = some (1, [(1, 5), (2, 12)]) ∧
    [(1, 5), (2, 12)] ≠ ([(1, 10), (2, 7)] : List (Nat × Int)) := by
  decide

/-- C2: Create is atomic.  Resolution and stock checks run before any write,
and every error aborts the transaction, so a ProductNotFound or
InsufficientStock failure on any line returns status 400 with the state
unchanged — no stock decrement, no slip, no income record. -/
theorem create_atomic_on_line_failure (st : State) (req : CreateReq)
    (a b : Nat) (sn : String) (now : Nat)
    (h : (∃ n, createSlipCore st req a b sn now = .error (.productNotFound n)) ∨
         (∃ n q, createSlipCore st req a b sn now = .error (.insufficientStock n q))) :
    createRun st req a b sn now = (400, st) := by
  unfold createRun
  rcases h with ⟨n, hn⟩ | ⟨n, q, hn⟩ <;> rw [hn] <;> rfl

/-- Witness for C2: a create request whose only line resolves to no item
fails with 400 and leaves the state unchanged. -/
theorem create_atomic_on_line_failure_witness :
    createRun stOne
      { subtotal := .num 0, totalAmount := .num 0,
        products := [{ productName := "Nope", productType := "Plate", quantity := 1 }] }
      7 8 "S" 0 = (400, stOne) :=
  create_atomic_on_line_failure _ _ _ _ _ _ (Or.inl ⟨"Nope", rfl⟩)

/-- C8 amended: every validation failure of a Create aborts with the state
unchanged; the request-shape failures (empty products, missing, non-numeric
or negative totals) and the resolution/stock failures are reported as 400,
but a line with non-positive quantity or negative base price is reported as
500 — those are the only 500s. -/
theorem create_error_statuses (st : State) (req : CreateReq)
    (a b : Nat) (sn : String) (now : Nat) (e : CreateErr)
    (h : createSlipCore st req a b sn now = .error e) :
    createRun st req a b sn now = (createStatus e, st) ∧
    (createStatus e = 400 ∨ createStatus e = 500) ∧
    (createStatus e = 500 ↔
      (∃ i, e = .lineInvalidQuantity i) ∨ (∃ i, e = .lineNegativeBasePrice i)) := by
  refine ⟨by unfold createRun; rw [h], ?_, ?_⟩
  · cases e <;> simp [createStatus]
  · cases e <;> simp [createStatus]

/-- Witness for C8 at the quantity-0 request: status 500, state unchanged. -/
theorem create_error_statuses_witness :
    createRun stOne reqZeroQty 100 200 "S" 5 =
      (createStatus (.lineInvalidQuantity 1), stOne) ∧
    (createStatus (.lineInvalidQuantity 1) = 400 ∨
      createStatus (.lineInvalidQuantity 1) = 500) ∧
    (createStatus (.lineInvalidQuantity 1) = 500 ↔
      (∃ i, CreateErr.lineInvalidQuantity 1 = .lineInvalidQuantity i) ∨
      (∃ i, CreateErr.lineInvalidQuantity 1 = .lineNegativeBasePrice i)) :=
  create_error_statuses stOne reqZeroQty 100 200 "S" 5 _ rfl

lemma updateSlip_ok_slip {st : State} {slipId : Nat} {u : UpdateReq} {now : Nat}
    {st1 : State} {s1 : Slip} (s : Slip)
    (hfind : st.slips.find? (fun t => t.id == slipId) = some s)
    (h : updateSlip st slipId u now = .ok st1 s1) :
    ¬(u.status = some "Cancelled" ∧ s.status = "Cancelled" ∧ s.cancelledAt.isSome = true) ∧
    s1 = applySlipUpdate s u (u.products.map fun ps => ps.map updateProcessLine)
      (if u.status == some "Cancelled" && s.status != "Cancelled" then some now else none) := by
  unfold updateSlip at h
  rw [hfind] at h
  cases hup : u.products with
  | none =>
    rw [hup] at h
    dsimp only at h
    by_cases hcond :
        u.status = some "Cancelled" ∧ s.status = "Cancelled" ∧ s.cancelledAt.isSome = true
    · rw [if_pos hcond] at h
      exact absurd h (by simp)
    · rw [if_neg hcond] at h
      injection h with h1 h2
      exact ⟨hcond, h2.symm⟩
  | some ps =>
    rw [hup] at h
    dsimp only at h
    cases hv : validateNewProducts (restoreOldProducts st.items s.products) ps with
    | error err =>
      rw [hv] at h
      cases err <;> dsimp only at h <;> exact absurd h (by simp)
    | ok ups =>
      rw [hv] at h
      dsimp only at h
      by_cases hcond :
          u.status = some "Cancelled" ∧ s.status = "Cancelled" ∧ s.cancelledAt.isSome = true
      · rw [if_pos hcond] at h
        exact absurd h (by simp)
      · rw [if_neg hcond] at h
        injection h with h1 h2
        exact ⟨hcond, h2.symm⟩

/-- C4 amended: a slip's status becomes Cancelled at most once (both
cancellation paths guard against re-cancellation), and an Update whose patch
omits `status` or sets it to Cancelled leaves a cancelled slip's status
Cancelled; but an Update supplying any other status value overwrites it
(there is no transition-out guard), leaving `cancelledAt` set, so Cancelled
is not terminal under Update and the `status = Cancelled ⇔ cancelledAt set`
equivalence does not survive such updates. -/
theorem cancelled_sticky_without_status_overwrite (st : State) (slipId : Nat)
    (u : UpdateReq) (now : Nat) (s : Slip) (st1 : State) (s1 : Slip)
    (hfind : st.slips.find? (fun t => t.id == slipId) = some s)
    (hc : s.status = "Cancelled")
    (hs : u.status = none ∨ u.status = some "Cancelled")
    (h : updateSlip st slipId u now = .ok st1 s1) :
    s1.status = "Cancelled" := by
  obtain ⟨-, hs1⟩ := updateSlip_ok_slip s hfind h
  rw [hs1]
  show u.status.getD s.status = "Cancelled"
  rcases hs with h0 | h0
  · rw [h0]; exact hc
  · rw [h0]; rfl

/-- Witness for C4: an update of a cancelled slip that only changes the
notes leaves the status Cancelled. -/
theorem cancelled_sticky_without_status_overwrite_witness :
    (applySlipUpdate slipCancelled { notes := some "n" } none none).status =
      "Cancelled" :=
  cancelled_sticky_without_status_overwrite stCancelled 51 { notes := some "n" } 9
    slipCancelled _ _ rfl rfl (Or.inl rfl) rfl

/-- C5 amended: cancelling an already-cancelled slip performs no mutation
and fails with status 400 on both paths; the error is AlreadyCancelled
reporting the prior cancellation timestamp via the dedicated Cancel route
always, and via Update whenever the patch carries no products array (a
products array that fails validation is reported with that validation error
instead, still with no mutation). -/
theorem already_cancelled_guard (st : State) (slipId : Nat) (s : Slip) (t : Nat)
    (hfind : st.slips.find? (fun x => x.id == slipId) = some s)
    (hc : s.status = "Cancelled") (hca : s.cancelledAt = some t) :
    (∀ reason now, cancelSlip st slipId reason now = .alreadyCancelled (some t) ∧
       cancelRun st slipId reason now = (400, st)) ∧
    (∀ (u : UpdateReq) (now : Nat), u.status = some "Cancelled" →
       updateRun st slipId u now = (400, st) ∧
       (u.products = none →
         updateSlip st slipId u now = .alreadyCancelled (some t))) := by
  constructor
  · intro reason now
    have hcs : cancelSlip st slipId reason now = .alreadyCancelled (some t) := by
      unfold cancelSlip
      rw [hfind]
      dsimp only
      rw [if_pos hc, hca]
    exact ⟨hcs, by unfold cancelRun; rw [hcs]⟩
  · intro u now hu
    cases hup : u.products with
    | none =>
      have hres : updateSlip st slipId u now = .alreadyCancelled (some t) := by
        unfold updateSlip
        rw [hfind, hup]
        dsimp only
        rw [if_pos ⟨hu, hc, by rw [hca]; rfl⟩, hca]
      exact ⟨by unfold updateRun; rw [hres], fun _ => hres⟩
    | some ps =>
      refine ⟨?_, fun hh => Option.noConfusion hh⟩
      cases hv : validateNewProducts (restoreOldProducts st.items s.products) ps with
      | error err =>
        cases err with
        | invalid =>
          have hres : updateSlip st slipId u now = .invalidProduct := by
            unfold updateSlip; rw [hfind, hup]; dsimp only; rw [hv]
          unfold updateRun; rw [hres]
        | notFound n =>
          have hres : updateSlip st slipId u now = .productNotFound n := by
            unfold updateSlip; rw [hfind, hup]; dsimp only; rw [hv]
          unfold updateRun; rw [hres]
        | insufficient n q =>
          have hres : updateSlip st slipId u now = .insufficientStock n q := by
            unfold updateSlip; rw [hfind, hup]; dsimp only; rw [hv]
          unfold updateRun; rw [hres]
      | ok ups =>
        have hres : updateSlip st slipId u now = .alreadyCancelled (some t) := by
          unfold updateSlip
          rw [hfind, hup]
          dsimp only
          rw [hv]
          dsimp only
          rw [if_pos ⟨hu, hc, by rw [hca]; rfl⟩, hca]
        unfold updateRun; rw [hres]

/-- Witness for C5: the guard fires at the concrete cancelled slip, both via
the cancel route and via an update with status Cancelled. -/
theorem already_cancelled_guard_witness :
    cancelSlip stCancelled 51 "dup" 9 = .alreadyCancelled (some 5) ∧
    cancelRun stCancelled 51 "dup" 9 = (400, stCancelled) ∧
    updateRun stCancelled 51 { status := some "Cancelled" } 9 = (400, stCancelled) ∧
    updateSlip stCancelled 51 { status := some "Cancelled" } 9 =
      .alreadyCancelled (some 5) := by
  obtain ⟨h1, h2⟩ := already_cancelled_guard stCancelled 51 slipCancelled 5 rfl rfl rfl
  obtain ⟨h21, h22⟩ := h2 { status := some "Cancelled" } 9 rfl
  exact ⟨(h1 "dup" 9).1, (h1 "dup" 9).2, h21, h22 rfl⟩

lemma mkRat_one_hundredth : (mkRat 1 100 : ℚ) = 1 / 100 := by
  rw [Rat.mkRat_eq_div]
  norm_num

lemma coverType_ne_empty {ct : String}
    (hct : bulkDiscountTypes.contains ct = true) : ct ≠ "" := by
  intro he
  rw [he] at hct
  exact absurd hct (by decide)

lemma lineBulk_of_eligible {p : ReqProduct}
    (hpt : p.productType = "Cover" ∨ p.productType = "")
    (hct : bulkDiscountTypes.contains p.coverType = true) :
    lineBulk p = if 10 ≤ p.quantity then 10 else 0 := by
  have hdef : (if p.productType = "" then "Cover" else p.productType) = "Cover" := by
    rcases hpt with h0 | h0 <;> rw [h0] <;> rfl
  unfold lineBulk calculateBulkDiscount
  rw [if_pos ⟨hdef, coverType_ne_empty hct⟩]
  by_cases hq : 10 ≤ p.quantity
  · rw [if_pos ⟨hct, hq⟩, if_pos hq]
  · rw [if_neg (fun hh => hq hh.2), if_neg hq]

/-- C6 amended: a Create line with Cover product type, a bulk-eligible cover
type, no explicit unit price and quantity ≥ 10 is persisted with
`discountType = bulk`, `unitPrice = max 0 (basePrice − 10)` — the flat
10-per-unit discount, clamped at zero, which is `basePrice − 10` whenever
`basePrice ≥ 10` — `discountAmount = 10·quantity` and
`totalPrice = quantity·unitPrice`; at quantity 9 or below no discount is
applied. -/
theorem bulk_discount_rule (idx : Nat) (p : ReqProduct) (l : ProductLine)
    (hu : p.unitPrice = none)
    (hpt : p.productType = "Cover" ∨ p.productType = "")
    (hct : bulkDiscountTypes.contains p.coverType = true)
    (h : processLine idx p = .ok l) :
    (10 ≤ p.quantity →
      l.discountType = "bulk" ∧
      l.unitPrice = max 0 (lineBase p - 10) ∧
      l.discountAmount = 10 * (p.quantity : ℚ) ∧
      l.totalPrice = (p.quantity : ℚ) * max 0 (lineBase p - 10)) ∧
    (p.quantity < 10 →
      l.discountType = "none" ∧
      l.unitPrice = lineBase p ∧
      l.discountAmount = 0 ∧
      l.totalPrice = (p.quantity : ℚ) * lineBase p) := by
  unfold processLine at h
  rw [hu, lineBulk_of_eligible hpt hct] at h
  dsimp only at h
  by_cases hq0 : p.quantity ≤ 0
  · rw [if_pos hq0] at h; exact absurd h (by simp)
  rw [if_neg hq0] at h
  by_cases hb0 : lineBase p < 0
  · rw [if_pos hb0] at h; exact absurd h (by simp)
  rw [if_neg hb0] at h
  have hbase : 0 ≤ lineBase p := le_of_not_lt hb0
  injection h with hl
  constructor
  · intro hq
    rw [if_pos hq] at hl
    rw [← hl]
    refine ⟨by norm_num, ?_, ?_, ?_⟩
    · show mathMax 0 (qSub (lineBase p) 10) = _
      rw [mathMax_eq_max, qSub_eq]
    · show qMul 10 (p.quantity : ℚ) = _
      rw [qMul_eq]
    · show qMul (p.quantity : ℚ) (mathMax 0 (qSub (lineBase p) 10)) = _
      rw [qMul_eq, mathMax_eq_max, qSub_eq]
  · intro hq
    rw [if_neg (not_le.mpr hq)] at hl
    rw [← hl]
    refine ⟨by norm_num, ?_, ?_, ?_⟩
    · show mathMax 0 (qSub (lineBase p) 0) = _
      rw [mathMax_eq_max, qSub_eq, sub_zero, max_eq_right hbase]
    · show qMul 0 (p.quantity : ℚ) = _
      rw [qMul_eq, zero_mul]
    · show qMul (p.quantity : ℚ) (mathMax 0 (qSub (lineBase p) 0)) = _
      rw [qMul_eq, mathMax_eq_max, qSub_eq, sub_zero, max_eq_right hbase]

/-- Fixture: the spec's example line `priceLine('Cover','Aster Cover', 10, 100)`. -/
def plTen : ReqProduct :=
  { productType := "Cover", coverType := "Aster Cover", quantity := 10,
    basePrice := some 100 }

/-- Fixture: the same line at quantity 9, below the discount threshold. -/
def plNine : ReqProduct := { plTen with quantity := 9 }

/-- Fixture: the line the create route persists for `plTen`. -/
def plTenLine : ProductLine :=
  { productName := "Cover - Aster Cover", productType := "Cover",
    coverType := "Aster Cover", plateCompany := "", bikeName := "",
    plateType := "", formCompany := "", formType := "", formVariant := "",
    quantity := 10, basePrice := 100, unitPrice := 90, discountAmount := 100,
    discountType := "bulk", totalPrice := 900, category := "",
    subcategory := "", company := "" }

/-- Fixture: the line the create route persists for `plNine`. -/
def plNineLine : ProductLine :=
  { plTenLine with
    quantity := 9
    unitPrice := 100
    discountAmount := 0
    discountType := "none"
    totalPrice := 900 }

/-- Witness for C6: the spec's own examples — quantity 10 at base price 100
gives unit price 90, bulk discount 100 and total 900; quantity 9 gives no
discount. -/
theorem bulk_discount_rule_witness :
    processLine 1 plTen = .ok plTenLine ∧
    (plTenLine.discountType = "bulk" ∧
     plTenLine.unitPrice = max 0 (lineBase plTen - 10) ∧
     plTenLine.discountAmount = 10 * (plTen.quantity : ℚ) ∧
     plTenLine.totalPrice = (plTen.quantity : ℚ) * max 0 (lineBase plTen - 10)) ∧
    processLine 1 plNine = .ok plNineLine ∧
    (plNineLine.discountType = "none" ∧
     plNineLine.unitPrice = lineBase plNine ∧
     plNineLine.discountAmount = 0 ∧
     plNineLine.totalPrice = (plNine.quantity : ℚ) * lineBase plNine) :=
  ⟨rfl,
   (bulk_discount_rule 1 plTen plTenLine rfl (Or.inl rfl) (by decide) rfl).1 (by decide),
   rfl,
   (bulk_discount_rule 1 plNine plNineLine rfl (Or.inl rfl) (by decide) rfl).2 (by decide)⟩

lemma createSlipCore_ok_spec {st : State} {req : CreateReq} {a b : Nat}
    {sn : String} {now : Nat} {st1 : State} {slip : Slip} {inc : IncomeRecord}
    (h : createSlipCore st req a b sn now = .ok (st1, slip, inc)) :
    ∃ sval tval ups lines,
      req.subtotal = NumField.num sval ∧ req.totalAmount = NumField.num tval ∧
      validateProducts st.items req.products = .ok ups ∧
      processProducts 1 req.products = .ok lines ∧
      st1.items = applyDeltas st.items (ups.map fun d => (d.1, -d.2)) ∧
      st1.slips = st.slips ++ [slip] ∧
      st1.incomes = st.incomes ++ [inc] ∧
      slip.products = lines ∧ slip.status = "Paid" ∧ slip.id = a ∧
      slip.subtotal = sval ∧ slip.totalAmount = tval ∧ slip.cancelledAt = none ∧
      inc.totalIncome = tval ∧ inc.productsSold = lines.map mkSoldProduct ∧
      inc.slipId = some slip.id ∧ inc.isActive = true := by
  unfold createSlipCore at h
  by_cases h1 : req.products = []
  · rw [if_pos h1] at h; exact absurd h (by simp)
  rw [if_neg h1] at h
  by_cases h2 : req.subtotal = .missing ∨ req.totalAmount = .missing
  · rw [if_pos h2] at h; exact absurd h (by simp)
  rw [if_neg h2] at h
  cases hsub : req.subtotal with
  | missing => rw [hsub] at h; cases htot : req.totalAmount <;> rw [htot] at h <;>
      exact absurd h (by simp)
  | nan => rw [hsub] at h; cases htot : req.totalAmount <;> rw [htot] at h <;>
      exact absurd h (by simp)
  | num sval =>
    cases htot : req.totalAmount with
    | missing => rw [hsub, htot] at h; exact absurd h (by simp)
    | nan => rw [hsub, htot] at h; exact absurd h (by simp)
    | num tval =>
      rw [hsub, htot] at h
      dsimp only at h
      by_cases h3 : sval < 0 ∨ tval < 0
      · rw [if_pos h3] at h; exact absurd h (by simp)
      rw [if_neg h3] at h
      cases hv : validateProducts st.items req.products with
      | error e => rw [hv] at h; exact absurd h (by simp [Bind.bind, Except.bind])
      | ok ups =>
        rw [hv] at h
        cases hp : processProducts 1 req.products with
        | error e => rw [hp] at h; exact absurd h (by simp [Bind.bind, Except.bind])
        | ok lines =>
          rw [hp] at h
          simp only [Bind.bind, Except.bind] at h
          injection h with hT
          injection hT with hA hBC
          injection hBC with hB hC
          subst hA; subst hB; subst hC
          exact ⟨sval, tval, ups, lines, rfl, rfl, rfl, rfl, rfl, rfl, rfl, rfl,
            rfl, rfl, rfl, rfl, rfl, rfl, rfl, rfl, rfl⟩

lemma updateSlip_ok_products {st : State} {slipId : Nat} {u : UpdateReq}
    {now : Nat} {st1 : State} {s1 : Slip} (s : Slip) (ps : List ReqProduct)
    (hfind : st.slips.find? (fun t => t.id == slipId) = some s)
    (hup : u.products = some ps)
    (hsnc : s.status ≠ "Cancelled") (husnc : u.status ≠ some "Cancelled")
    (h : updateSlip st slipId u now = .ok st1 s1) :
    s1 = applySlipUpdate s u (some (ps.map updateProcessLine)) none ∧
    st1.incomes = updateIncomesFor st.incomes s u s1 (ps.map updateProcessLine) := by
  unfold updateSlip at h
  rw [hfind, hup] at h
  dsimp only at h
  cases hv : validateNewProducts (restoreOldProducts st.items s.products) ps with
  | error err =>
    rw [hv] at h
    cases err <;> dsimp only at h <;> exact absurd h (by simp)
  | ok ups =>
    rw [hv] at h
    dsimp only at h
    have hb : (u.status == some "Cancelled") = false :=
      beq_eq_false_iff_ne.mpr husnc
    rw [if_neg (fun hc : u.status = some "Cancelled" ∧ s.status = "Cancelled" ∧
        s.cancelledAt.isSome = true => husnc hc.1)] at h
    simp only [hb, Bool.false_and, Bool.false_eq_true, if_false, Option.map] at h
    rw [if_pos ⟨husnc, hsnc⟩] at h
    injection h with h1 h2
    subst h1; subst h2
    exact ⟨rfl, rfl⟩

/-- C3 amended: the income mirror holds after Create — the inserted income
record is active, references the slip, and matches its total and line
quantities/totals — and after every Update that includes a products array on
a non-cancelled slip, every active income record referencing the slip is
rewritten to the updated total and lines.  (An Update that changes
`subtotal`/`totalAmount` without a products array does not touch the income
record, so the claim's `totalIncome = totalAmount` equality fails there —
see the counterexample.) -/
theorem income_mirror_create_and_product_updates :
    (∀ (st : State) (req : CreateReq) (a b : Nat) (sn : String) (now : Nat)
        (st1 : State) (slip : Slip) (inc : IncomeRecord),
      createSlipCore st req a b sn now = .ok (st1, slip, inc) →
      inc.isActive = true ∧ inc.slipId = some slip.id ∧
      inc.totalIncome = slip.totalAmount ∧
      inc.productsSold.map (fun sp => (sp.quantity, sp.totalPrice)) =
        slip.products.map (fun pl => (pl.quantity, pl.totalPrice))) ∧
    (∀ (st : State) (slipId : Nat) (u : UpdateReq) (now : Nat) (s : Slip)
        (ps : List ReqProduct) (st1 : State) (s1 : Slip),
      st.slips.find? (fun t => t.id == slipId) = some s →
      u.products = some ps →
      s.status ≠ "Cancelled" → u.status ≠ some "Cancelled" →
      updateSlip st slipId u now = .ok st1 s1 →
      ∀ inc ∈ st1.incomes, referencesSlip s1 inc = true → inc.isActive = true →
        inc.totalIncome = s1.totalAmount ∧
        inc.productsSold.map (fun sp => (sp.quantity, sp.totalPrice)) =
          s1.products.map (fun pl => (pl.quantity, pl.totalPrice))) := by
  constructor
  · intro st req a b sn now st1 slip inc h
    obtain ⟨sval, tval, ups, lines, -, -, -, -, -, -, -, hprod, -, -, -,
      htotal, -, hti, hps, hsid, hact⟩ := createSlipCore_ok_spec h
    refine ⟨hact, hsid, ?_, ?_⟩
    · rw [hti, htotal]
    · rw [hps, hprod, List.map_map]
      rfl
  · intro st slipId u now s ps st1 s1 hfind hup hsnc husnc h inc hmem href hact
    obtain ⟨hs1, hinc⟩ := updateSlip_ok_products s ps hfind hup hsnc husnc h
    rw [hinc] at hmem
    unfold updateIncomesFor at hmem
    obtain ⟨inc0, hmem0, hfi⟩ := List.mem_map.mp hmem
    by_cases hcase : (referencesSlip s inc0 && inc0.isActive) = true
    · rw [if_pos hcase] at hfi
      refine ⟨?_, ?_⟩
      · rw [← hfi]
        show orQ u.totalAmount s1.totalAmount = s1.totalAmount
        have hta : s1.totalAmount = u.totalAmount.getD s.totalAmount := by
          rw [hs1]; rfl
        rw [hta]
        exact orQ_getD _ _
      · rw [← hfi]
        show ((ps.map updateProcessLine).map mkSoldProduct).map
          (fun sp => (sp.quantity, sp.totalPrice)) = _
        have hprod : s1.products = ps.map updateProcessLine := by
          rw [hs1]; rfl
        rw [hprod]
        generalize ps.map updateProcessLine = l
        rw [List.map_map]
        rfl
    · rw [if_neg hcase] at hfi
      subst hfi
      exfalso
      apply hcase
      rw [Bool.and_eq_true]
      refine ⟨?_, hact⟩
      have hrr : referencesSlip s1 inc0 = referencesSlip s inc0 := by
        rw [hs1]; rfl
      rw [← hrr]
      exact href

/-- Fixture: a simple one-line create request for five units of `itemFoo`. -/
def reqCW : CreateReq :=
  { subtotal := .num 500, totalAmount := .num 500,
    products := [{ productName := "Foo", quantity := 5, basePrice := some 100 }] }

/-- Fixture: the product line persisted for `reqCW`. -/
def lineCW : ProductLine :=
  { productName := "Foo", productType := "Cover", coverType := "",
    plateCompany := "", bikeName := "", plateType := "", formCompany := "",
    formType := "", formVariant := "", quantity := 5, basePrice := 100,
    unitPrice := 100, discountAmount := 0, discountType := "none",
    totalPrice := 500, category := "", subcategory := "", company := "" }

/-- Fixture: the sold-product snapshot persisted for `reqCW`. -/
def soldCW : SoldProduct :=
  { productName := "Foo", sku := "", productType := "Cover", coverType := "",
    plateCompany := "", bikeName := "", plateType := "", formCompany := "",
    formType := "", formVariant := "", quantity := 5, unitPrice := 100,
    totalPrice := 500, category := "", subcategory := "", company := "" }

/-- Fixture: the slip created for `reqCW`. -/
def slipCW : Slip :=
  { id := 100, slipNumber := "S", customerName := "Walk-in Customer",
    customerPhone := "", paymentMethod := "Cash", products := [lineCW],
    subtotal := 500, totalAmount := 500, status := "Paid", cancelledAt := none,
    notes := "" }

/-- Fixture: the income record created for `reqCW`. -/
def incCW : IncomeRecord :=
  { id := 200, date := 5, totalIncome := 500, productsSold := [soldCW],
    customerName := "Walk-in Customer", customerPhone := "",
    paymentMethod := "Cash", slipNumber := "S", slipId := some 100,
    isActive := true, notes := "Sale from slip" }

/-- Fixture: the committed state after `reqCW` against `stOne`. -/
def stCW : State :=
  { items := [{ itemFoo with quantity := 5 }], slips := [slipCW], incomes := [incCW] }

/-- Fixture: a products-and-total update request line against `slipPaid`. -/
def pW : ReqProduct := { productName := "Foo", quantity := 2, basePrice := some 100 }

/-- Fixture: the update request carrying `pW` and a new total. -/
def uW : UpdateReq := { products := some [pW], totalAmount := some 300 }

/-- Fixture: the product line recomputed for `pW` by the update route. -/
def lineUW : ProductLine :=
  { lineCW with quantity := 2, totalPrice := 200 }

/-- Fixture: the sold-product snapshot mirrored for `pW`. -/
def soldUW : SoldProduct :=
  { soldCW with quantity := 2, totalPrice := 200 }

/-- Fixture: the slip after applying `uW` to `slipPaid`. -/
def s1UW : Slip :=
  { slipPaid with products := [lineUW], totalAmount := 300 }

/-- Fixture: the income record after applying `uW` to `stMirror`. -/
def incUW : IncomeRecord :=
  { incPaid with totalIncome := 300, productsSold := [soldUW] }

/-- Fixture: the committed state after applying `uW` to `stMirror`. -/
def st1UW : State :=
  { items := [{ itemFoo with quantity := 8 }], slips := [s1UW], incomes := [incUW] }

/-- Witness for C3: the mirror equalities hold at a concrete Create and at a
concrete products-carrying Update. -/
theorem income_mirror_create_and_product_updates_witness :
    (incCW.isActive = true ∧ incCW.slipId = some slipCW.id ∧
     incCW.totalIncome = slipCW.totalAmount ∧
     incCW.productsSold.map (fun sp => (sp.quantity, sp.totalPrice)) =
       slipCW.products.map (fun pl => (pl.quantity, pl.totalPrice))) ∧
    (incUW.totalIncome = s1UW.totalAmount ∧
     incUW.productsSold.map (fun sp => (sp.quantity, sp.totalPrice)) =
       s1UW.products.map (fun pl => (pl.quantity, pl.totalPrice))) := by
  obtain ⟨hc, hu⟩ := income_mirror_create_and_product_updates
  exact ⟨hc stOne reqCW 100 200 "S" 5 stCW slipCW incCW (by decide),
    hu stMirror 50 uW 9 slipPaid [pW] st1UW s1UW rfl rfl (by decide) (by decide)
      (by decide) incUW (by simp [st1UW]) (by decide) (by decide)⟩

/-- C7 amended: the claim holds on the Create path — an explicit unit price
differing from `basePrice − bulkDiscountPerUnit` by more than 0.01 yields
`discountType = manual`, `discountAmount = max 0 (basePrice − u)·quantity`,
a unit price clamped at 0 and `totalPrice = quantity·unitPrice`.  On the
Update path the code instead fires on any exact difference, stores
`discountAmount = (basePrice − u)·quantity` without the `max 0` clamp, and
persists the explicit unit price and total without clamping. -/
theorem manual_override_rule (idx : Nat) (p : ReqProduct) (l : ProductLine) (u : ℚ)
    (hu : p.unitPrice = some u) :
    (|u - (lineBase p - lineBulk p)| > 1 / 100 →
      processLine idx p = .ok l →
      l.discountType = "manual" ∧
      l.discountAmount = max 0 (lineBase p - u) * (p.quantity : ℚ) ∧
      l.unitPrice = max 0 u ∧
      l.totalPrice = (p.quantity : ℚ) * max 0 u) ∧
    (u ≠ lineBase p - lineBulk p →
      (updateProcessLine p).discountType = "manual" ∧
      (updateProcessLine p).discountAmount = (lineBase p - u) * (p.quantity : ℚ) ∧
      (updateProcessLine p).unitPrice = u ∧
      (updateProcessLine p).totalPrice = (p.quantity : ℚ) * u) := by
  constructor
  · intro htol h
    have hman : jsAbs (qSub u (qSub (lineBase p) (lineBulk p))) > mkRat 1 100 := by
      rw [jsAbs_eq_abs, qSub_eq, qSub_eq, mkRat_one_hundredth]
      exact htol
    unfold processLine at h
    rw [hu] at h
    dsimp only at h
    by_cases hq0 : p.quantity ≤ 0
    · rw [if_pos hq0] at h; exact absurd h (by simp)
    rw [if_neg hq0] at h
    by_cases hb0 : lineBase p < 0
    · rw [if_pos hb0] at h; exact absurd h (by simp)
    rw [if_neg hb0] at h
    injection h with hl
    rw [if_pos (decide_eq_true hman), if_pos (decide_eq_true hman)] at hl
    rw [← hl]
    refine ⟨rfl, ?_, ?_, ?_⟩
    · show qMul (mathMax 0 (qSub (lineBase p) u)) (p.quantity : ℚ) = _
      rw [qMul_eq, mathMax_eq_max, qSub_eq]
    · show mathMax 0 u = _
      rw [mathMax_eq_max]
    · show qMul (p.quantity : ℚ) (mathMax 0 u) = _
      rw [qMul_eq, mathMax_eq_max]
  · intro hne
    have hman : decide (u ≠ qSub (lineBase p) (lineBulk p)) = true :=
      decide_eq_true (by rw [qSub_eq]; exact hne)
    have hrec : updateProcessLine p =
        { productName := synthLineName p
          productType := if p.productType = "" then "Cover" else p.productType
          coverType := p.coverType
          plateCompany := p.plateCompany
          bikeName := p.bikeName
          plateType := p.plateType
          formCompany := ""
          formType := ""
          formVariant := ""
          quantity := p.quantity
          basePrice := lineBase p
          unitPrice := u
          discountAmount := qMul (qSub (lineBase p) u) (p.quantity : ℚ)
          discountType := "manual"
          totalPrice := qMul (p.quantity : ℚ) u
          category := p.category
          subcategory := p.subcategory
          company := p.company } := by
      unfold updateProcessLine
      rw [hu]
      dsimp only
      rw [hman]
      rfl
    rw [hrec]
    refine ⟨rfl, ?_, rfl, ?_⟩
    · show qMul (qSub (lineBase p) u) (p.quantity : ℚ) = _
      rw [qMul_eq, qSub_eq]
    · show qMul (p.quantity : ℚ) u = _
      rw [qMul_eq]

/-- Fixture: a line with an explicit unit price 150 above its base price 100. -/
def pManual : ReqProduct :=
  { productName := "Foo", quantity := 2, basePrice := some 100,
    unitPrice := some 150 }

/-- Fixture: the line the create route persists for `pManual`. -/
def pManualLine : ProductLine :=
  { lineCW with
    quantity := 2
    unitPrice := 150
    discountAmount := 0
    discountType := "manual"
    totalPrice := 300 }

/-- Witness for C7: the manual-override equalities at the concrete line
`pManual`, on both the create path and the update path. -/
theorem manual_override_rule_witness :
    processLine 1 pManual = .ok pManualLine ∧
    (pManualLine.discountType = "manual" ∧
     pManualLine.discountAmount = max 0 (lineBase pManual - 150) * (pManual.quantity : ℚ) ∧
     pManualLine.unitPrice = max 0 150 ∧
     pManualLine.totalPrice = (pManual.quantity : ℚ) * max 0 150) ∧
    ((updateProcessLine pManual).discountType = "manual" ∧
     (updateProcessLine pManual).discountAmount =
       (lineBase pManual - 150) * (pManual.quantity : ℚ) ∧
     (updateProcessLine pManual).unitPrice = 150 ∧
     (updateProcessLine pManual).totalPrice = (pManual.quantity : ℚ) * 150) := by
  have h := manual_override_rule 1 pManual pManualLine 150 rfl
  refine ⟨by decide, h.1 ?_ (by decide), h.2 ?_⟩
  · rw [show lineBase pManual = (100 : ℚ) from rfl,
      show lineBulk pManual = (0 : ℚ) from rfl,
      show (150 : ℚ) - (100 - 0) = 50 by norm_num,
      abs_of_pos (by norm_num : (0 : ℚ) < 50)]
    norm_num
  · rw [show lineBase pManual = (100 : ℚ) from rfl,
      show lineBulk pManual = (0 : ℚ) from rfl]
    norm_num

/-- C9 amended: Create followed by Cancel returns every Item quantity to its
pre-create value provided the cancellation's name/SKU resolution returns,
line for line, exactly the items (and quantities) that creation decremented
— the hypothesis `restorePlan st1.items slip.products = ups`.  Without that
agreement the round-trip fails, because creation resolves by attributes
first while cancellation resolves by name only (see the counterexample). -/
theorem create_cancel_roundtrip (st : State) (req : CreateReq)
    (a b : Nat) (sn : String) (now now2 : Nat) (reason : String)
    (st1 : State) (slip : Slip) (inc : IncomeRecord) (ups : List (Nat × Int))
    (st2 : State) (s2 : Slip) (ni nr : Nat)
    (h1 : createSlipCore st req a b sn now = .ok (st1, slip, inc))
    (hv : validateProducts st.items req.products = .ok ups)
    (hfind : st1.slips.find? (fun t => t.id == slip.id) = some slip)
    (hagree : restorePlan st1.items slip.products = ups)
    (h2 : cancelSlip st1 slip.id reason now2 = .ok st2 s2 ni nr) :
    st2.items = st.items := by
  obtain ⟨sval, tval, ups2, lines, -, -, hv2, -, hitems, -, -, -, hstatus, -,
    -, -, -, -, -, -, -⟩ := createSlipCore_ok_spec h1
  have hups : ups2 = ups := by
    rw [hv] at hv2
    exact (Except.ok.inj hv2).symm
  subst hups
  unfold cancelSlip at h2
  rw [hfind] at h2
  dsimp only at h2
  rw [if_neg (by rw [hstatus]; decide)] at h2
  injection h2 with hA hB hC hD
  subst hA
  show State.items
      { items := (restoreByName st1.items slip.products).1
        slips := _
        incomes := _ } = st.items
  rw [restoreByName_eq_plan]
  show applyDeltas st1.items (restorePlan st1.items slip.products) = st.items
  rw [hagree, hitems]
  exact applyDeltas_cancel st.items ups2

/-- Fixture: the slip `slipCW` after cancellation at time 9. -/
def slipCWCancelled : Slip :=
  { slipCW with
    status := "Cancelled"
    cancelledAt := some 9 }

/-- Fixture: the income record `incCW` after cancellation. -/
def incCWCancelled : IncomeRecord :=
  { incCW with
    isActive := false
    notes := "Cancelled - Slip" }

/-- Fixture: the committed state after cancelling `slipCW` in `stCW`. -/
def stCW2 : State :=
  { items := [itemFoo], slips := [slipCWCancelled], incomes := [incCWCancelled] }

/-- Witness for C9: creating `reqCW` against `stOne` and cancelling the slip
returns the item quantities to their pre-create values. -/
theorem create_cancel_roundtrip_witness : stCW2.items = stOne.items :=
  create_cancel_roundtrip stOne reqCW 100 200 "S" 5 9 "" stCW slipCW incCW
    [(1, 5)] stCW2 slipCWCancelled 1 1 (by decide) (by decide) (by decide)
    (by decide) (by decide)

lemma netDelta_eq_zero_of_not_mem (ds : List (Nat × Int)) (j : Nat)
    (h : j ∉ ds.map Prod.fst) : netDelta ds j = 0 := by
  induction ds with
  | nil => rfl
  | cons d rest ih =>
    obtain ⟨i, δ⟩ := d
    rw [netDelta_cons]
    simp only [List.map_cons, List.mem_cons] at h
    push_neg at h
    rw [if_neg (fun hh => h.1 hh.symm), ih h.2, Int.add_zero]

lemma netDelta_of_nodup (ds : List (Nat × Int)) (j : Nat) (q : Int)
    (hmem : (j, q) ∈ ds) (hnd : (ds.map Prod.fst).Nodup) :
    netDelta ds j = q := by
  induction ds with
  | nil => cases hmem
  | cons d rest ih =>
    obtain ⟨i, δ⟩ := d
    rw [netDelta_cons]
    rw [List.map_cons, List.nodup_cons] at hnd
    rcases List.mem_cons.mp hmem with heq | hrest
    · injection heq with h1 h2
      subst h1
      subst h2
      rw [if_pos rfl, netDelta_eq_zero_of_not_mem rest j hnd.1, Int.add_zero]
    · have hne : i ≠ j := by
        intro hh
        subst hh
        exact hnd.1 (List.mem_map.mpr ⟨(i, q), hrest, rfl⟩)
      rw [if_neg hne, Int.zero_add]
      exact ih hrest hnd.2

lemma applyDeltas_eq_map (items : List Item) (ds : List (Nat × Int)) :
    applyDeltas items ds =
      items.map fun it =>
        { it with quantity := it.quantity + netDelta ds it.id } := by
  refine List.ext_getElem (by rw [length_applyDeltas, List.length_map]) ?_
  intro k h1 h2
  rw [List.getElem_map]
  exact getElem_applyDeltas ds items k h1 (by rw [List.length_map] at h2; exact h2)

/-- C10: Delete on an existing slip removes exactly the slips with that id,
keeps every income record (same ids in order) but clears `isActive` on
precisely the active records referencing the slip, reports their count,
restores inventory according to the delete-path resolution plan (each item's
quantity grows by the net of its resolved line quantities — by exactly its
line quantity when the plan's item ids are distinct), and reports the number
of resolved lines.  Unresolvable lines are skipped silently (best-effort). -/
theorem delete_restores_and_removes (st : State) (slipId : Nat) (s : Slip)
    (st1 : State) (r n : Nat)
    (hfind : st.slips.find? (fun t => t.id == slipId) = some s)
    (h : deleteSlip st slipId = .ok st1 r n) :
    (∀ t : Slip, t ∈ st1.slips ↔ (t ∈ st.slips ∧ t.id ≠ s.id)) ∧
    st1.incomes.map IncomeRecord.id = st.incomes.map IncomeRecord.id ∧
    st1.incomes.map IncomeRecord.isActive =
      st.incomes.map (fun inc => inc.isActive && !(referencesSlip s inc)) ∧
    n = (st.incomes.filter fun inc => referencesSlip s inc && inc.isActive).length ∧
    r = (deletePlan st.items s.products).length ∧
    st1.items = st.items.map (fun it =>
      { it with quantity :=
          it.quantity + netDelta (deletePlan st.items s.products) it.id }) ∧
    (((deletePlan st.items s.products).map Prod.fst).Nodup →
      ∀ jq ∈ deletePlan st.items s.products,
        netDelta (deletePlan st.items s.products) jq.1 = jq.2) := by
  unfold deleteSlip at h
  rw [hfind] at h
  dsimp only at h
  injection h with hA hB hC
  subst hA
  subst hB
  subst hC
  refine ⟨?_, ?_, ?_, ?_, ?_, ?_, ?_⟩
  · intro t
    show t ∈ st.slips.filter (fun x => !(x.id == s.id)) ↔ _
    rw [List.mem_filter]
    simp
  · show (deactivateFor st.incomes s "Deleted - Slip").1.map IncomeRecord.id = _
    simp only [deactivateFor]
    rw [List.map_map]
    refine List.map_congr_left ?_
    intro inc _
    show IncomeRecord.id (if referencesSlip s inc && inc.isActive then
        { inc with isActive := false, notes := "Deleted - Slip" } else inc) = inc.id
    by_cases hc : (referencesSlip s inc && inc.isActive) = true
    · rw [if_pos hc]
    · rw [if_neg hc]
  · show (deactivateFor st.incomes s "Deleted - Slip").1.map IncomeRecord.isActive = _
    simp only [deactivateFor]
    rw [List.map_map]
    refine List.map_congr_left ?_
    intro inc _
    show IncomeRecord.isActive (if referencesSlip s inc && inc.isActive then
        { inc with isActive := false, notes := "Deleted - Slip" } else inc) =
      (inc.isActive && !(referencesSlip s inc))
    cases href : referencesSlip s inc <;> cases hact : inc.isActive <;>
      simp [href, hact]
  · rfl
  · show (restoreDelete st.items s.products).2 = _
    rw [restoreDelete_eq_plan]
  · show (restoreDelete st.items s.products).1 = _
    rw [restoreDelete_eq_plan]
    exact applyDeltas_eq_map st.items (deletePlan st.items s.products)
  · intro hnd jq hjq
    obtain ⟨j, q⟩ := jq
    exact netDelta_of_nodup _ j q hjq hnd

/-- Fixture: the income record `incCW` after deleting its slip. -/
def incCWDeleted : IncomeRecord :=
  { incCW with
    isActive := false
    notes := "Deleted - Slip" }

/-- Fixture: the committed state after deleting `slipCW` from `stCW`. -/
def stDelW : State :=
  { items := [itemFoo], slips := [], incomes := [incCWDeleted] }

/-- Witness for C10: deleting the slip created by `reqCW` from `stCW`
removes the slip, restores `itemFoo` from 5 back to 10 units, deactivates
its one income record and returns counts 1 and 1. -/
theorem delete_restores_and_removes_witness :
    (∀ t : Slip, t ∈ stDelW.slips ↔ (t ∈ stCW.slips ∧ t.id ≠ slipCW.id)) ∧
    stDelW.incomes.map IncomeRecord.id = stCW.incomes.map IncomeRecord.id ∧
    stDelW.incomes.map IncomeRecord.isActive =
      stCW.incomes.map (fun inc => inc.isActive && !(referencesSlip slipCW inc)) ∧
    (1 : Nat) = (stCW.incomes.filter fun inc =>
      referencesSlip slipCW inc && inc.isActive).length ∧
    (1 : Nat) = (deletePlan stCW.items slipCW.products).length ∧
    stDelW.items = stCW.items.map (fun it =>
      { it with quantity :=
          it.quantity + netDelta (deletePlan stCW.items slipCW.products) it.id }) ∧
    (((deletePlan stCW.items slipCW.products).map Prod.fst).Nodup →
      ∀ jq ∈ deletePlan stCW.items slipCW.products,
        netDelta (deletePlan stCW.items slipCW.products) jq.1 = jq.2) :=
  delete_restores_and_removes stCW 100 slipCW stDelW 1 1 (by decide) (by decide)

end SaeedAuto
